import Mathlib

/-!
Verification development for `MDB_Parser/wrapper_generator.py`, the
IL2CPP-dump-to-C#-wrapper generator.  The Python source is shallowly
embedded below: each Lean definition mirrors one Python function or
constant from the source file, operating on `List Char` / `String`
data just as the Python operates on `str`.  Python's exception
behaviour is modelled with `Option` where relevant (a `none` result of
a `...O` function models an uncaught exception escaping the Python
function).
-/

namespace MDB

/-! ## Python string primitives

These mirror the behaviour of the Python `str` operations the source
uses.  They are written as structural recursion over `List Char` so
that every definition evaluates inside the kernel.  They model the
ASCII fragment of Python semantics; every string the generator
inspects with these operations is checked for ASCII-ness first (see
`has_valid_csharp_identifier_chars`), matching the source's own
comments. -/

/-- Python `s.rstrip(cs)`: drop trailing characters drawn from `cs`. -/
def rstripSet (s : String) (cs : List Char) : String :=
  String.mk ((s.data.reverse.dropWhile (fun c => cs.contains c)).reverse)

/-- Python `s.lstrip(cs)`. -/
def lstripSet (s : String) (cs : List Char) : String :=
  String.mk (s.data.dropWhile (fun c => cs.contains c))

/-- Python whitespace characters relevant to the dump format. -/
def pyWhitespace : List Char := [' ', '\t', '\n', '\r']

/-- Python `s.strip()` (whitespace on both ends). -/
def pyStrip (s : String) : String :=
  String.mk (((s.data.dropWhile (fun c => pyWhitespace.contains c)).reverse.dropWhile
    (fun c => pyWhitespace.contains c)).reverse)

/-- Split a character list at every occurrence of the separator list
(non-overlapping, left to right), like Python `str.split(sep)` with a
non-empty separator. -/
def splitOnCharList (sep : List Char) : Nat → List Char → List Char → List (List Char)
  | _, [], acc => [acc.reverse]
  | 0, cs, acc => [acc.reverse ++ cs]
  | fuel + 1, c :: rest, acc =>
    if sep ≠ [] ∧ sep.isPrefixOf (c :: rest) then
      acc.reverse :: splitOnCharList sep fuel (List.drop (sep.length - 1) rest) []
    else
      splitOnCharList sep fuel rest (c :: acc)

/-- Python `s.split(sep)` for a non-empty separator `sep`.  The fuel
argument of the worker is the input length, which it never exhausts
since every step consumes at least one character. -/
def pySplit (s : String) (sep : String) : List String :=
  (splitOnCharList sep.data s.data.length s.data []).map String.mk

/-- Python `sub in s` (substring containment) for non-empty `sub`. -/
def pyContains (s : String) (sub : String) : Bool :=
  (pySplit s sub).length > 1

/-- Python `s.startswith(p)`. -/
def pyStartsWith (s : String) (p : String) : Bool :=
  p.data.isPrefixOf s.data

/-- Python `s.endswith(p)`. -/
def pyEndsWith (s : String) (p : String) : Bool :=
  p.data.isSuffixOf s.data

/-- Python `s.split(sep)[0]`: the prefix before the first occurrence of
the separator (the whole string when the separator is absent). -/
def firstPart (s : String) (sep : String) : String :=
  match pySplit s sep with
  | [] => ""
  | x :: _ => x

/-- Python `str.isupper()` restricted to ASCII strings: at least one
uppercase letter and no lowercase letter. -/
def pyStrIsUpper (s : String) : Bool :=
  s.data.any (fun c => c.isUpper) && s.data.all (fun c => !c.isLower)

/-- Python `str.isalpha()` restricted to ASCII strings. -/
def pyStrIsAlpha (s : String) : Bool :=
  s.data ≠ [] && s.data.all (fun c => c.isAlpha)

/-- Python `str.isdigit()` restricted to ASCII strings. -/
def pyStrIsDigit (s : String) : Bool :=
  s.data ≠ [] && s.data.all (fun c => c.isDigit)

/-- Python `int(s)` on an optionally signed decimal literal (the only
shape enum constants take in the dump): strip whitespace, optional
sign, at least one digit.  Returns `none` where Python `int` raises
`ValueError`. -/
def pyInt (s : String) : Option Int :=
  let t := (pyStrip s).data
  let core : List Char → Option Int := fun ds =>
    if ds = [] then none
    else if ds.all (fun c => c.isDigit) then
      some (ds.foldl (fun acc c => acc * 10 + (c.toNat - 48)) (0 : Int))
    else none
  match t with
  | '-' :: rest => (core rest).map (fun v => -v)
  | '+' :: rest => core rest
  | _ => core t

/-- Python `s.replace(a, "")` for a single character `a`: remove every
occurrence of that character. -/
def removeChar (s : String) (a : Char) : String :=
  String.mk (s.data.filter (fun c => c ≠ a))

/-! ## Data model (source lines 74–115) -/

/-- `ParameterDef` dataclass. -/
structure ParameterDef where
  modifier : String
  type : String
  name : String
deriving DecidableEq, Repr

/-- `MethodDef` dataclass. -/
structure MethodDef where
  name : String
  return_type : String
  is_static : Bool
  visibility : String
  parameters : List ParameterDef := []
  rva : Option String := none
deriving DecidableEq, Repr

/-- `PropertyDef` dataclass. -/
structure PropertyDef where
  name : String
  type : String
  visibility : String
  has_get : Bool
  has_set : Bool
deriving DecidableEq, Repr

/-- `FieldDef` dataclass. -/
structure FieldDef where
  name : String
  type : String
  visibility : String
  is_const : Bool := false
  value : Option String := none
deriving DecidableEq, Repr

/-- `TypeDef` dataclass. -/
structure TypeDef where
  dll : Option String
  namespc : Option String
  kind : String
  name : String
  base_type : Option String
  visibility : String
  properties : List PropertyDef := []
  methods : List MethodDef := []
  fields : List FieldDef := []
deriving DecidableEq, Repr

/-! ## Global constant sets (source lines 26–69, 734–975, 1164, 1186–1189) -/

/-- `SKIP_BASE_TYPES` (source lines 26–59). -/
def SKIP_BASE_TYPES : List String :=
  ["MulticastDelegate", "Delegate", "Enum", "ValueType", "Array",
   "Attribute", "Exception", "ApplicationException", "SystemException",
   "EventArgs", "ArrayList", "Hashtable", "Dictionary",
   "SynchronizationContext",
   "PropertyDescriptor", "MemberDescriptor", "TypeConverter", "SerializationBinder",
   "Stream", "MemoryStream",
   "PropertyAttribute", "PreserveAttribute", "UnityException",
   "InputDevice", "Pointer",
   "Toggle",
   "Sensor",
   "UxmlTraits", "UxmlFactory",
   "JsonContainerAttribute", "JsonException",
   "MaterialReference",
   "Match", "Capture", "Group",
   "unitytls_tlsctx_read_callback", "unitytls_tlsctx_write_callback",
   "CaptureResultType",
   "AssetReferenceUIRestriction",
   "Space"]

/-- `SKIP_NESTED_ENUM_NAMES` (source lines 64–69). -/
def SKIP_NESTED_ENUM_NAMES : List String :=
  ["Type", "Direction", "Mode", "Status", "Button", "Flags", "Axis", "Sign", "Unit",
   "State", "Kind", "Options", "Result", "Action", "Event", "Value", "Index",
   "UpdateMode", "CaptureResultType", "ContentType", "InputType", "CharacterValidation",
   "LineType", "WorldUpType", "FpsCounterAnchorPositions"]

/-- `GENERIC_TYPE_PARAMS` (source line 1164). -/
def GENERIC_TYPE_PARAMS : List String :=
  ["T", "T1", "T2", "T3", "T4", "TKey", "TValue", "TResult", "TSource", "TElement",
   "TControl", "TDevice", "TState", "TProcessor", "TObject", "U", "V", "TAttribute",
   "TData", "TDescriptor", "TEnum"]

/-- `known_t_types` inside `is_generic_type_param` (source lines 1186–1189). -/
def KNOWN_T_TYPES : List String :=
  ["TMPro", "Transform", "Texture", "Texture2D", "Texture3D", "TextMesh",
   "TextMeshPro", "TextMeshProUGUI", "Tween", "Tweener", "TweenParams",
   "Thread", "Timer", "TimeSpan", "Task", "Type", "Tuple", "Toggle",
   "Tile", "Tilemap", "Touch", "TrailRenderer", "Terrain", "Tree"]

/-! ## Identifier classification (source lines 977–1227) -/

/-- `has_valid_csharp_identifier_chars` (source lines 1068–1082): only
ASCII letters, digits and underscores; empty names rejected. -/
def has_valid_csharp_identifier_chars (name : String) : Bool :=
  name.data ≠ [] && name.data.all (fun c => c.isAlphanum || c = '_')

/-- `is_unicode_name` (source lines 1085–1093). -/
def is_unicode_name (name : String) : Bool :=
  if name.data = [] then false
  else
    let clean := removeChar (removeChar (removeChar (removeChar name '<') '>') '.') '|'
    !has_valid_csharp_identifier_chars clean

/-- Strip generics, arrays and backtick arity: `split("<")[0].split("[")[0].split("`")[0]`
(source line 980 and elsewhere). -/
def stripDecorations (name : String) : String :=
  firstPart (firstPart (firstPart name "<") "[") "`"

/-- `is_obfuscated_type` (source lines 977–989). -/
def is_obfuscated_type (type_name : String) : Bool :=
  let base := stripDecorations type_name
  if !has_valid_csharp_identifier_chars base then true
  else if base.data.length ≥ 8 && pyStrIsUpper base && pyStrIsAlpha base then true
  else false

/-- `is_generic_type_param` (source lines 1166–1193).  Faithful to the
source: there is no underscore test anywhere in the function. -/
def is_generic_type_param (type_name : String) : Bool :=
  let base := rstripSet (rstripSet type_name ['[', ']']) ['?']
  if GENERIC_TYPE_PARAMS.contains base then true
  else if base.data.length = 1 && pyStrIsUpper base then true
  else
    match base.data with
    | c0 :: c1 :: _ =>
      if c0 = 'T' && c1.isUpper then
        if KNOWN_T_TYPES.contains base then false else true
      else false
    | _ => false

/-- The generic-parameter classifier exactly as claim C8 words it: a
known fixed token, or a single uppercase letter, or the T+uppercase
pattern, the pattern clause being disabled when the identifier
contains an underscore or is in the known-real-type exception list. -/
def genericParamClaimC8 (type_name : String) : Bool :=
  let base := rstripSet (rstripSet type_name ['[', ']']) ['?']
  GENERIC_TYPE_PARAMS.contains base
  || (base.data.length = 1 && pyStrIsUpper base)
  || (match base.data with
      | c0 :: c1 :: _ =>
        c0 = 'T' && c1.isUpper && !(base.data.contains '_')
          && !(KNOWN_T_TYPES.contains base)
      | _ => false)

/-- Claim C8 as amended: same as the claim but with no underscore
exception, matching the source. -/
def genericParamAmendedC8 (type_name : String) : Bool :=
  let base := rstripSet (rstripSet type_name ['[', ']']) ['?']
  GENERIC_TYPE_PARAMS.contains base
  || (base.data.length = 1 && pyStrIsUpper base)
  || (match base.data with
      | c0 :: c1 :: _ =>
        c0 = 'T' && c1.isUpper && !(KNOWN_T_TYPES.contains base)
      | _ => false)

/-! ## Further constant sets (source lines 734–975, 1056–1066, 1347–1362, 1698, 1707–1715) -/

/-- `KNOWN_TYPES` (source lines 734–754). -/
def KNOWN_TYPES : List String :=
  ["void", "bool", "byte", "sbyte", "char", "decimal", "double", "float", "int", "uint",
   "long", "ulong", "short", "ushort", "object", "string", "IntPtr", "UIntPtr",
   "Type", "Array", "Exception", "EventArgs", "Delegate", "MulticastDelegate",
   "Action", "Func", "Predicate", "Comparison", "Converter",
   "List", "Dictionary", "HashSet", "Queue", "Stack", "KeyValuePair",
   "Task", "ValueTask", "CancellationToken", "CancellationTokenSource",
   "TimeSpan", "DateTime", "DateTimeOffset", "Guid", "Uri", "Version",
   "Nullable", "Lazy", "WeakReference", "Tuple", "ValueTuple",
   "Stream", "MemoryStream", "StreamReader", "StreamWriter", "BinaryReader", "BinaryWriter",
   "StringBuilder", "Encoding",
   "XmlNode", "XmlDocument", "XmlElement", "XmlAttribute",
   "IEnumerator", "IEnumerable", "ICollection", "IList", "IDictionary",
   "IDisposable", "ICloneable", "IComparable", "IEquatable", "IFormattable",
   "Il2CppObject"]

/-- `TYPE_MAP` (source lines 896–914), as an association list. -/
def TYPE_MAP : List (String × String) :=
  [("Void", "void"), ("Boolean", "bool"), ("Int32", "int"), ("Int64", "long"),
   ("UInt32", "uint"), ("UInt64", "ulong"), ("Single", "float"), ("Double", "double"),
   ("String", "string"), ("Object", "object"), ("Byte", "byte"), ("SByte", "sbyte"),
   ("Int16", "short"), ("UInt16", "ushort"), ("Char", "char"),
   ("IntPtr", "IntPtr"), ("UIntPtr", "UIntPtr")]

/-- `SKIP_TYPES` (source lines 917–942). -/
def SKIP_TYPES : List String :=
  ["Enumerator", "ConfiguredTaskAwaiter", "ControlBuilder", "Record", "Style",
   "UxmlFactory", "UxmlTraits", "Recursion",
   "unitytls_tlsctx_read_callback", "unitytls_tlsctx_write_callback",
   "unitytls_x509verify_callback", "unitytls_tlsctx_certificate_callback",
   "CaptureResultType",
   "MaterialReference",
   "Match",
   "OpenVR",
   "UnitySynchronizationContext",
   "Pointer",
   "SDKTexture",
   "VisualRecordingIndicators",
   "Map"]

/-- `SKIP_PROPERTY_NAMES` (source line 945). -/
def SKIP_PROPERTY_NAMES : List String :=
  ["Type", "Object", "String", "Int32", "Boolean", "Array"]

/-- `AMBIGUOUS_TYPES` (source lines 948–975), as an association list. -/
def AMBIGUOUS_TYPES : List (String × String) :=
  [("EventHandler", "System.EventHandler"),
   ("Object", "UnityEngine.Object"),
   ("Image", "UnityEngine.UI.Image"),
   ("Button", "UnityEngine.UI.Button"),
   ("Toggle", "UnityEngine.UI.Toggle"),
   ("Renderer", "UnityEngine.Renderer"),
   ("TextAsset", "UnityEngine.TextAsset"),
   ("BigInteger", "System.Numerics.BigInteger"),
   ("Message", "Riptide.Message"),
   ("Client", "Riptide.Client"),
   ("Server", "Riptide.Server"),
   ("ErrorEventArgs", "System.IO.ErrorEventArgs"),
   ("IFormatter", "System.Runtime.Serialization.IFormatter"),
   ("SocketManager", "DecaGames.RotMG.Managers.Net.SocketManager"),
   ("Random", "UnityEngine.Random"),
   ("Hashtable", "System.Collections.Hashtable"),
   ("Version", "System.Version")]

/-- `ALWAYS_IMPORTED_NAMESPACES` (source lines 881–892). -/
def ALWAYS_IMPORTED_NAMESPACES : List String :=
  ["System", "System.Collections", "System.Collections.Generic",
   "System.Text", "System.IO", "System.Xml", "System.Reflection",
   "System.Globalization", "System.Runtime.Serialization",
   "System.Threading", "System.Threading.Tasks",
   "UnityEngine", "UnityEngine.UI", "UnityEngine.Events",
   "UnityEngine.EventSystems", "UnityEngine.Rendering",
   "UnityEngine.SceneManagement", "UnityEngine.Audio", "UnityEngine.AI",
   "UnityEngine.Animations", "TMPro",
   "GameSDK",
   "Global"]

/-- `known_generics` inside `is_type_resolvable` (source lines 802–817). -/
def KNOWN_GENERICS : List String :=
  ["List", "Dictionary", "HashSet", "Queue", "Stack", "LinkedList",
   "SortedList", "SortedDictionary", "SortedSet", "KeyValuePair",
   "IList", "IDictionary", "ICollection", "IEnumerable", "IEnumerator",
   "IReadOnlyList", "IReadOnlyCollection", "IReadOnlyDictionary",
   "ISet", "IComparer", "IEqualityComparer",
   "Nullable", "Tuple", "ValueTuple", "Lazy", "WeakReference",
   "Action", "Func", "Predicate", "Comparison", "Converter",
   "EventHandler", "ArraySegment", "Memory", "Span", "ReadOnlyMemory", "ReadOnlySpan",
   "Task", "ValueTask",
   "NativeArray", "NativeList", "NativeHashMap", "NativeQueue"]

/-- `CSHARP_KEYWORDS` (source lines 1056–1066). -/
def CSHARP_KEYWORDS : List String :=
  ["abstract", "as", "base", "bool", "break", "byte", "case", "catch", "char", "checked",
   "class", "const", "continue", "decimal", "default", "delegate", "do", "double", "else",
   "enum", "event", "explicit", "extern", "false", "finally", "fixed", "float", "for",
   "foreach", "goto", "if", "implicit", "in", "int", "interface", "internal", "is", "lock",
   "long", "namespace", "new", "null", "object", "operator", "out", "override", "params",
   "private", "protected", "public", "readonly", "ref", "return", "sbyte", "sealed", "short",
   "sizeof", "stackalloc", "static", "string", "struct", "switch", "this", "throw", "true",
   "try", "typeof", "uint", "ulong", "unchecked", "unsafe", "ushort", "using", "virtual",
   "void", "volatile", "while"]

/-- The interface-like base types stripped at source line 1698. -/
def PROBLEM_BASE_TYPES : List String :=
  ["IEnumerator", "IDisposable", "IComparer", "IEnumerable", "ICollection"]

/-- `known_base_types` inside the class-emission base cleanup (source
lines 1707–1715). -/
def KNOWN_BASE_TYPES : List String :=
  ["MonoBehaviour", "ScriptableObject", "Component", "Behaviour",
   "Object", "UnityEvent", "UnityEventBase", "Selectable", "UIBehaviour",
   "Graphic", "MaskableGraphic", "Image", "Text", "Texture", "Texture2D",
   "Material", "Mesh", "Sprite", "Camera", "Transform", "RectTransform",
   "Canvas", "CanvasGroup", "EventTrigger", "AudioSource", "AudioClip",
   "Animator", "Animation", "ParticleSystem", "Renderer", "Collider",
   "Rigidbody", "Rigidbody2D", "Il2CppObject"]

/-! ## Name sanitization (source lines 1119–1161) -/

/-- Python `s.replace(a, b)` for single characters. -/
def replaceChar (s : String) (a b : Char) : String :=
  String.mk (s.data.map (fun c => if c = a then b else c))

/-- The `name.replace("<","_").replace(">","_").replace(".","_").replace("|","_")`
chain from `sanitize_name`, in removal form used by the validity check. -/
def cleanDecor (name : String) : String :=
  removeChar (removeChar (removeChar (removeChar name '<') '>') '.') '|'

/-- `sanitize_name` (source lines 1119–1161), `return_original = False`
variant.  `none` models the Python `None` (skip). -/
def sanitize_name (name : String) : Option String :=
  if name.data = [] then none
  else if name = ".ctor" then none
  else if name = ".cctor" then none
  else if !has_valid_csharp_identifier_chars (cleanDecor name) then none
  else
    let n1 := replaceChar (replaceChar (replaceChar (replaceChar name '<' '_') '>' '_') '.' '_') '|' '_'
    let n2 := match n1.data with
      | c :: _ => if c.isDigit then "_" ++ n1 else n1
      | [] => n1
    let n3 := if CSHARP_KEYWORDS.contains n2 then "@" ++ n2 else n2
    some n3

/-! ## `map_type` (source lines 991–1053) -/

/-- The slice `s[s.find("<")+1 : s.rfind(">")]` with Python's index
conventions: a failed `find` yields `-1`, and a negative slice bound
counts from the end of the string. -/
def pySliceFind (s : String) : String :=
  let ds := s.data
  let n := ds.length
  let i : Int := match ds.findIdx? (fun c => c = '<') with
    | some k => (k : Int)
    | none => -1
  let j : Int := match ds.reverse.findIdx? (fun c => c = '>') with
    | some k => ((n : Int) - 1 - (k : Int))
    | none => -1
  let start : Int := i + 1
  let stop : Int := if j < 0 then (n : Int) + j else j
  if stop ≤ start then "" else String.mk ((ds.drop start.toNat).take (stop - start).toNat)

/-- `map_type` (source lines 991–1053).  `none` models the Python
`None` (skip this type). -/
def map_type (il2cpp_type : String) : Option String :=
  if il2cpp_type.data = [] then none
  else if il2cpp_type.data.contains '*' then none
  else if pyContains il2cpp_type "InputAction.CallbackContext" then
    some (String.intercalate "CallbackContext" (pySplit il2cpp_type "InputAction.CallbackContext"))
  else if il2cpp_type.data.contains '<' && il2cpp_type.data.contains '>' &&
      ((pySliceFind il2cpp_type).data = [] → false) &&
      (pySplit (pySliceFind il2cpp_type) ",").any
        (fun arg => GENERIC_TYPE_PARAMS.contains (rstripSet (pyStrip arg) ['[', ']'])) then
    none
  else if pyStartsWith il2cpp_type "Nullable`1" || pyContains il2cpp_type "Nullable<" then
    none
  else if pyEndsWith il2cpp_type "[]" &&
      (AMBIGUOUS_TYPES.lookup (String.mk (il2cpp_type.data.take (il2cpp_type.data.length - 2)))).isSome then
    (AMBIGUOUS_TYPES.lookup (String.mk (il2cpp_type.data.take (il2cpp_type.data.length - 2)))).map
      (fun q => q ++ "[]")
  else if (AMBIGUOUS_TYPES.lookup il2cpp_type).isSome then
    AMBIGUOUS_TYPES.lookup il2cpp_type
  else if il2cpp_type.data.contains '`' then
    some (mapBacktick il2cpp_type)
  else
    some ((TYPE_MAP.lookup il2cpp_type).getD il2cpp_type)
where
  /-- The backtick-generic branch (source lines 1034–1051). -/
  mapBacktick (t : String) : String :=
    let parts := pySplit t "`"
    let base0 := match parts with
      | b :: _ => b
      | [] => ""
    let base := (AMBIGUOUS_TYPES.lookup base0).getD base0
    match parts with
    | _ :: p1 :: _ =>
      match pyInt (firstPart (firstPart p1 "[") "<") with
      | some num =>
        let args := String.intercalate ", " (List.replicate num.toNat "object")
        let result := base ++ "<" ++ args ++ ">"
        if pyEndsWith t "[]" then result ++ "[]" else result
      | none => base
    | _ => base

/-! ## Registry builder (source lines 387–456) -/

/-- The three global registries built by `build_type_registry`:
`TYPE_REGISTRY`, `GENERIC_TYPE_REGISTRY` and `GENERATED_TYPES`. -/
structure Registry where
  typeReg : List (String × List String) := []
  genericReg : List (String × List String) := []
  generated : List (String × String) := []
deriving DecidableEq, Repr

/-- Append `v` to the namespace list of key `k`, creating the entry if
absent and skipping if already present (dict-of-lists semantics of the
Python registries). -/
def addToMultiMap : List (String × List String) → String → String → List (String × List String)
  | [], k, v => [(k, [v])]
  | (k0, vs) :: rest, k, v =>
    if k0 = k then
      (if vs.contains v then (k0, vs) :: rest else (k0, vs ++ [v]) :: rest)
    else (k0, vs) :: addToMultiMap rest k v

/-- Python `set.add` on a list-modelled set of pairs. -/
def addToPairSet (s : List (String × String)) (p : String × String) : List (String × String) :=
  if s.contains p then s else s ++ [p]

/-- `ns = t.namespace if t.namespace else "Global"` (an empty or absent
namespace is falsy in Python). -/
def nsOf (t : TypeDef) : String :=
  match t.namespc with
  | none => "Global"
  | some s => if s = "" then "Global" else s

/-- The base name used by the registry builder:
`t.name.split("`")[0].split("<")[0]` (source lines 406 and 443). -/
def baseNameTickAngle (s : String) : String :=
  firstPart (firstPart s "`") "<"

/-- The `has_content` computation of `build_type_registry` (source
lines 415–435). -/
def registryHasContent (t : TypeDef) : Bool :=
  if SKIP_TYPES.contains t.name then false
  else if t.base_type = some "MulticastDelegate" then false
  else if t.kind = "enum" && !t.fields.isEmpty then
    if SKIP_NESTED_ENUM_NAMES.contains t.name then false else true
  else if !t.methods.isEmpty || !t.properties.isEmpty || !t.fields.isEmpty then
    match t.base_type with
    | none => true
    | some b =>
      let clean := pyStrip (rstripSet b [','])
      if clean ≠ "" && SKIP_BASE_TYPES.contains clean then false else true
  else false

/-- One iteration of the `build_type_registry` loop (source lines 397–453). -/
def registryStep (reg : Registry) (t : TypeDef) : Registry :=
  if t.name.data = [] then reg
  else if t.visibility ≠ "public" then reg
  else if is_unicode_name (baseNameTickAngle t.name) then reg
  else
    let ns := nsOf t
    let reg1 :=
      if registryHasContent t then { reg with generated := addToPairSet reg.generated (t.name, ns) }
      else reg
    if t.name.data.contains '`' || t.name.data.contains '<' then
      { reg1 with genericReg := addToMultiMap reg1.genericReg (baseNameTickAngle t.name) ns }
    else
      { reg1 with typeReg := addToMultiMap reg1.typeReg t.name ns }

/-- `build_type_registry` (source lines 387–456): a single pass over
the declaration list into fresh registries. -/
def build_type_registry (types : List TypeDef) : Registry :=
  types.foldl registryStep {}

/-! ## `is_type_resolvable` (source lines 757–877) -/

/-- The depth-aware comma split of generic arguments (source lines
827–843). -/
def splitGenericArgs (inner : String) : List String :=
  let fin := inner.data.foldl
    (fun (st : Int × List Char × List String) c =>
      let d := st.1
      let cur := st.2.1
      let args := st.2.2
      if c = '<' then (d + 1, c :: cur, args)
      else if c = '>' then (d - 1, c :: cur, args)
      else if c = ',' && d = 0 then (d, [], args ++ [pyStrip (String.mk cur.reverse)])
      else (d, c :: cur, args))
    ((0 : Int), ([] : List Char), ([] : List String))
  let last := pyStrip (String.mk fin.2.1.reverse)
  if last ≠ "" then fin.2.2 ++ [last] else fin.2.2

/-- The base-name extraction of `is_type_resolvable` (source line 783):
`type_name.split("<")[0].split("[")[0].split("`")[0].strip("?")`. -/
def resolvableBaseName (type_name : String) : String :=
  lstripSet (rstripSet (firstPart (firstPart (firstPart type_name "<") "[") "`") ['?']) ['?']

/-- `is_type_resolvable` (source lines 757–877), with explicit fuel for
the recursion on generic arguments (each recursive call is on a strict
substring, so `type_name.length` fuel suffices; the wrapper below
supplies it). -/
def isTypeResolvableFuel (reg : Registry) : Nat → String → Option String → Option (List String) → Bool
  | 0, _, _, _ => false
  | fuel + 1, type_name, cns, imp =>
    if type_name.data = [] then false
    else
      let is_used_as_generic :=
        (type_name.data.contains '<' && type_name.data.contains '>')
          || type_name.data.contains '`'
      let base_name := resolvableBaseName type_name
      if is_generic_type_param base_name then true
      else if (TYPE_MAP.lookup base_name).isSome then true
      else if KNOWN_TYPES.contains base_name then true
      else if is_used_as_generic then
        if !KNOWN_GENERICS.contains base_name then false
        else
          (splitGenericArgs (pySliceFind type_name)).all
            (fun arg => isTypeResolvableFuel reg fuel arg cns imp)
      else
        match reg.typeReg.lookup base_name with
        | some tns =>
          match cns, imp with
          | some c, some il =>
            tns.any (fun n =>
              (n = c || il.contains n) && reg.generated.contains (base_name, n))
          | _, _ =>
            tns.any (fun n => reg.generated.contains (base_name, n))
        | none => false

/-- Wrapper giving `is_type_resolvable` its natural fuel. -/
def is_type_resolvable (type_name : String) (cns : Option String)
    (imp : Option (List String)) (reg : Registry) : Bool :=
  isTypeResolvableFuel reg (type_name.data.length + 1) type_name cns imp

/-! ## Method-signature helpers (source lines 1195–1227) -/

/-- `get_generic_type_params_from_method` (source lines 1195–1207); the
Python set is modelled as a duplicate-free list in first-seen order. -/
def get_generic_type_params_from_method (m : MethodDef) : List String :=
  let r := rstripSet m.return_type ['[', ']']
  let init := if GENERIC_TYPE_PARAMS.contains r then [r] else []
  m.parameters.foldl (fun acc p =>
    let b := rstripSet p.type ['[', ']']
    if GENERIC_TYPE_PARAMS.contains b && !acc.contains b then acc ++ [b] else acc) init

/-- `has_generic_type_arg` (source lines 1209–1222).  `none` models the
`ValueError` that `rindex(">")` raises when `<` is present but `>` is
not. -/
def has_generic_type_argO (type_str : String) : Option Bool :=
  if !type_str.data.contains '<' then some false
  else
    match type_str.data.reverse.findIdx? (fun c => c = '>') with
    | none => none
    | some _ =>
      some ((pySplit (pySliceFind type_str) ",").any
        (fun arg => is_generic_type_param (pyStrip arg)))

/-- `is_backtick_generic` (source lines 1225–1227). -/
def is_backtick_generic (t : String) : Bool :=
  t.data.contains '`' && !t.data.contains '<'

/-! ## `is_valid_method` (source lines 1230–1306)

Modelled as `Option Bool`: `some b` is a normal return, `none` models
an exception escaping the function (the unguarded `parts[0][0]` at
source line 1242 raises `IndexError` when the first dot-separated part
is empty, and `rindex` inside `has_generic_type_arg` can raise
`ValueError`). -/

/-- The per-parameter validation loop of `is_valid_method` (source
lines 1275–1305). -/
def checkParamsO (cns : Option String) (imp : Option (List String)) (reg : Registry)
    (mGen : Bool) : List ParameterDef → Option Bool
  | [] => some true
  | p :: ps =>
    if p.name = "__no_name__" then some false
    else if is_generic_type_param p.type then some false
    else
      match has_generic_type_argO p.type with
      | none => none
      | some true => some false
      | some false =>
        if mGen && is_backtick_generic p.type then some false
        else if (map_type p.type).isNone then some false
        else if p.type.data.contains '*' then some false
        else if is_unicode_name (stripDecorations p.type) then some false
        else if !is_type_resolvable p.type cns imp reg then some false
        else if p.modifier = "out" || p.modifier = "ref" || p.modifier = "in" then some false
        else checkParamsO cns imp reg mGen ps

/-- The explicit-interface-implementation test of `is_valid_method`
(source lines 1239–1243): `some true` means "reject", `none` models
the `IndexError` raised by `parts[0][0]` when the first dot-separated
part is empty. -/
def dotCheckO (name : String) : Option Bool :=
  if name.data.contains '.' then
    let parts := pySplit name "."
    if parts.length > 1 then
      match parts.head? with
      | some p0 =>
        match p0.data with
        | [] => none
        | c :: _ => some c.isUpper
      | none => some false
    else some false
  else some false

/-- `is_valid_method` (source lines 1230–1306). -/
def is_valid_methodO (m : MethodDef) (cns : Option String) (imp : Option (List String))
    (reg : Registry) : Option Bool :=
  if m.name = ".ctor" || m.name = ".cctor" then some false
  else if m.name.data.contains '|' then some false
  else
    match dotCheckO m.name with
    | none => none
    | some true => some false
    | some false =>
      let mGen := !(get_generic_type_params_from_method m).isEmpty
      if is_generic_type_param m.return_type then some false
      else if (map_type m.return_type).isNone then some false
      else if m.return_type.data.contains '*' then some false
      else if is_unicode_name (stripDecorations m.return_type) then some false
      else if !is_type_resolvable m.return_type cns imp reg then some false
      else
        match has_generic_type_argO m.return_type with
        | none => none
        | some true => some false
        | some false =>
          if mGen && is_backtick_generic m.return_type then some false
          else checkParamsO cns imp reg mGen m.parameters

/-! ## Parameter-token parsing (source lines 146–150 and 350–376) -/

/-- `PARAM_RE` on a stripped token: the pattern
`(out|ref|in)? ([^ ]+) ([^ ]+)` over space-separated words.  With two
words the optional modifier group cannot consume the first word (the
remaining pattern needs two more words), so it stays empty; with three
words the first must be a modifier keyword for the match to succeed;
other word counts fail to match. -/
def paramRegexMatch (p : String) : Option (Option String × String × String) :=
  match (pySplit p " ").filter (fun w => w ≠ "") with
  | [a, b] => some (none, a, b)
  | [a, b, c] =>
    if a = "out" || a = "ref" || a = "in" then some (some a, b, c) else none
  | _ => none

/-- Parameter construction with the missing-name normalization (source
lines 353–376): when the type slot captured a modifier keyword, shift
it into the modifier, promote the name slot to the type, and use the
`__no_name__` sentinel. -/
def buildParam (p : String) : Option ParameterDef :=
  (paramRegexMatch p).map fun g =>
    let g1 := g.1
    let g2 := g.2.1
    let g3 := g.2.2
    if g2 = "ref" || g2 = "out" || g2 = "in" then
      ⟨g2, g3, "__no_name__"⟩
    else ⟨g1.getD "", g2, g3⟩

/-- The parameter-block split and per-token parse (source lines
350–376): split on commas, strip, drop empties, drop tokens the regex
rejects. -/
def parseParams (param_block : String) : List ParameterDef :=
  (((pySplit param_block ",").map pyStrip).filter (fun x => x ≠ "")).filterMap buildParam

/-! ## Type-body scan (source lines 208–382)

A raw text line is abstracted by `Line`, which records exactly the
observations the Python loop makes of it: its brace counts, whether it
is one of the three section markers or an `// RVA:` comment (with the
extracted address), and the result of matching it against `FIELD_RE`,
`PROPERTY_RE` and `METHOD_RE`. -/

/-- The capture groups of a `METHOD_RE` match (source lines 138–144,
333–339): visibility, presence of a modifier group (the source treats
any matched modifier as `is_static`), return type, name, and the raw
parameter block. -/
structure MethodMatch where
  vis : String
  isStatic : Bool
  ret : String
  name : String
  paramBlock : String
deriving DecidableEq, Repr

/-- One raw line of a type body, abstracted by the observations the
scan makes of it. -/
structure Line where
  nOpen : Nat := 0
  nClose : Nat := 0
  isFieldsMarker : Bool := false
  isPropsMarker : Bool := false
  isMethodsMarker : Bool := false
  rvaComment : Option (Option String) := none
  fieldMatch : Option FieldDef := none
  propMatch : Option PropertyDef := none
  methodMatch : Option MethodMatch := none
deriving DecidableEq, Repr

/-- Build a `MethodDef` from a method-line match and the pending RVA
(source lines 341–378). -/
def buildMethod (mm : MethodMatch) (pending : Option String) : MethodDef :=
  { name := mm.name, return_type := mm.ret, is_static := mm.isStatic,
    visibility := mm.vis, parameters := parseParams (pyStrip mm.paramBlock),
    rva := pending }

/-- The mutable state of the body scan (source lines 244–254). -/
structure ScanState where
  inFields : Bool := false
  inProps : Bool := false
  inMethods : Bool := false
  pendingRva : Option String := none
  depth : Int := 1
  acc : TypeDef
deriving DecidableEq, Repr

/-- Processing of one line whose updated depth is already positive
(source lines 259–380). -/
def lineAction (st : ScanState) (l : Line) : ScanState :=
  if l.isFieldsMarker then { st with inFields := true, inProps := false, inMethods := false }
  else if l.isPropsMarker then { st with inProps := true, inMethods := false, inFields := false }
  else if l.isMethodsMarker then { st with inMethods := true, inProps := false, inFields := false }
  else
    match l.fieldMatch, st.inFields with
    | some f, true => { st with acc := { st.acc with fields := st.acc.fields ++ [f] } }
    | _, _ =>
      match l.propMatch, st.inProps with
      | some p, true => { st with acc := { st.acc with properties := st.acc.properties ++ [p] } }
      | _, _ =>
        if st.inMethods then
          match l.rvaComment with
          | some r => { st with pendingRva := r }
          | none =>
            match l.methodMatch with
            | some mm =>
              let acc1 := { st.acc with methods := st.acc.methods ++ [buildMethod mm st.pendingRva] }
              { st with pendingRva := none, acc := acc1 }
            | none => st
        else st

/-- The body-scan loop of `_parse_type` (source lines 249–382): update
the brace depth, stop once it is no longer positive, otherwise process
the line; an exhausted input closes the body at end of file. -/
def scanLines : List Line → ScanState → TypeDef
  | [], st => st.acc
  | l :: ls, st =>
    let d := st.depth + (l.nOpen : Int) - (l.nClose : Int)
    if d ≤ 0 then st.acc
    else scanLines ls (lineAction { st with depth := d } l)

/-- A line that triggers none of the scan's tests: no braces, no
marker, no RVA comment, no member match.  The scan skips it. -/
def InertLine (l : Line) : Prop :=
  l.nOpen = 0 ∧ l.nClose = 0 ∧ l.isFieldsMarker = false ∧ l.isPropsMarker = false ∧
  l.isMethodsMarker = false ∧ l.rvaComment = none ∧ l.fieldMatch = none ∧
  l.propMatch = none ∧ l.methodMatch = none

instance (l : Line) : Decidable (InertLine l) := by
  unfold InertLine
  infer_instance

/-! ## Delegate emission (source lines 1425–1499) -/

/-- One step of the delegate-emission loop, carrying the set of seen
delegate names and the emitted lines. -/
def delegateStep (ns : String) (imp : List String) (reg : Registry)
    (st : List String × List String) (t : TypeDef) : List String × List String :=
  if t.kind ≠ "class" then st
  else if t.visibility ≠ "public" then st
  else if t.base_type ≠ some "MulticastDelegate" then st
  else if t.name.data.contains '`' || t.name.data.contains '<' || t.name.data.contains '>' then st
  else if !has_valid_csharp_identifier_chars t.name then st
  else if st.1.contains t.name then st
  else if SKIP_TYPES.contains t.name then st
  else
    match t.methods.find? (fun m => m.name = "Invoke") with
    | none => st
    | some invoke =>
      if invoke.return_type.data.contains '*'
          || invoke.parameters.any (fun p => p.type.data.contains '*') then st
      else if is_generic_type_param invoke.return_type
          || invoke.parameters.any (fun p => is_generic_type_param p.type) then st
      else
        match map_type invoke.return_type with
        | none => st
        | some ret =>
          if !is_type_resolvable invoke.return_type (some ns) (some imp) reg then st
          else if !(invoke.parameters.all (fun p =>
              (map_type p.type).isSome
                && is_type_resolvable p.type (some ns) (some imp) reg)) then st
          else
            let params_str := String.intercalate ", " (invoke.parameters.map (fun p =>
              ((map_type p.type).getD "") ++ " " ++ ((sanitize_name p.name).getD p.name)))
            (st.1 ++ [t.name],
             st.2 ++ ["    " ++ t.visibility ++ " delegate " ++ ret ++ " " ++ t.name
                        ++ "(" ++ params_str ++ ");", ""])

/-- The delegate section of a namespace's body (source lines 1425–1499). -/
def emitDelegates (ns_types : List TypeDef) (ns : String) (imp : List String)
    (reg : Registry) : List String :=
  (ns_types.foldl (delegateStep ns imp reg) ([], [])).2

/-! ## Enum emission (source lines 1501–1555) -/

/-- Processing of one enum constant (source lines 1532–1545): strip a
trailing comment from the value, drop the constant when the value
parses to an integer outside the signed 32-bit range, keep it
otherwise (non-numeric values are kept as-is). -/
def enumConstProcess (ev : FieldDef) : Option (String × Option String) :=
  match ev.value with
  | some v =>
    let val := pyStrip (firstPart v "//")
    match pyInt val with
    | some iv =>
      if iv > 2147483647 || iv < -2147483648 then none else some (ev.name, some val)
    | none => some (ev.name, some val)
  | none => some (ev.name, none)

/-- `valid_values` for an enum (source lines 1529–1545): const fields
whose type equals the enum name, each processed by `enumConstProcess`. -/
def enumValidValues (t : TypeDef) : List (String × Option String) :=
  (t.fields.filter (fun f => f.is_const && f.type = t.name)).filterMap enumConstProcess

/-- The emitted enum value lines with trailing commas (source lines
1547–1552). -/
def enumValueLines (vals : List (String × Option String)) : List String :=
  vals.enum.map (fun inv =>
    let comma := if inv.1 < vals.length - 1 then "," else ""
    match inv.2.2 with
    | some v => "        " ++ inv.2.1 ++ " = " ++ v ++ comma
    | none => "        " ++ inv.2.1 ++ comma)

/-- The full emitted body of one enum (source lines 1526–1555). -/
def enumBody (t : TypeDef) : List String :=
  ["    " ++ t.visibility ++ " enum " ++ t.name, "    \x7b"]
  ++ enumValueLines (enumValidValues t)
  ++ ["    \x7d", ""]

/-- One step of the enum-emission loop (source lines 1504–1555),
carrying seen type names and emitted lines. -/
def enumStep (st : List String × List String) (t : TypeDef) : List String × List String :=
  if t.kind ≠ "enum" then st
  else if t.visibility ≠ "public" then st
  else if t.name.data.contains '`' || t.name.data.contains '<' || t.name.data.contains '>' then st
  else if !has_valid_csharp_identifier_chars t.name then st
  else if SKIP_NESTED_ENUM_NAMES.contains t.name then st
  else if SKIP_TYPES.contains t.name then st
  else if st.1.contains t.name then st
  else (st.1 ++ [t.name], st.2 ++ enumBody t)

/-- The enum section of a namespace's body (source lines 1501–1555). -/
def emitEnums (ns_types : List TypeDef) : List String :=
  (ns_types.foldl enumStep ([], [])).2

/-! ## Class base-type cleanup (source lines 1684–1720) -/

/-- Base cleanup, interface-prefix test (source lines 1693–1696). -/
def cleanBaseIface (b1 : String) : Option String :=
  match b1.data with
  | c0 :: c1 :: _ => if c0 = 'I' && c1.isUpper then none else some b1
  | _ => some b1

/-- Base cleanup, problematic-interface set (source line 1698). -/
def cleanBaseProblem (b2 : Option String) : Option String :=
  match b2 with
  | some x => if PROBLEM_BASE_TYPES.contains x then none else some x
  | none => none

/-- Base cleanup, obfuscation test (source lines 1700–1702). -/
def cleanBaseObf (b3 : Option String) : Option String :=
  match b3 with
  | some x => if is_obfuscated_type x then none else some x
  | none => none

/-- Base cleanup, resolvability test with the well-known fallback set
(source lines 1703–1717). -/
def cleanBaseResolve (b4 : Option String) (ns : String) (imp : List String)
    (reg : Registry) : Option String :=
  match b4 with
  | some x =>
    if !is_type_resolvable x (some ns) (some imp) reg then
      (if KNOWN_BASE_TYPES.contains x then some x else none)
    else some x
  | none => none

/-- The base-type cleanup performed for each emitted class (source
lines 1684–1717): `none` means the base is dropped and the class falls
back to `Il2CppObject`. -/
def cleanClassBase : Option String → String → List String → Registry → Option String
  | none, _, _, _ => none
  | some b, ns, imp, reg =>
    if b.data.contains '`' then none
    else
      cleanBaseResolve
        (cleanBaseObf (cleanBaseProblem (cleanBaseIface (pyStrip (rstripSet b [','])))))
        ns imp reg

/-- The emitted base-type part of a class declaration (source line
1720): the cleaned base, or the `Il2CppObject` fallback. -/
def classBasePart (bt : Option String) (ns : String) (imp : List String)
    (reg : Registry) : String :=
  match cleanClassBase bt ns imp reg with
  | some b => " : " ++ b
  | none => " : Il2CppObject"

/-! ## Property consolidation and method deduplication (source lines 1740–1917) -/

/-- One entry of the `property_methods` dict (source line 1747). -/
structure PropInfo where
  get : Option MethodDef := none
  set : Option MethodDef := none
  type : Option String := none
deriving DecidableEq, Repr

/-- Update the entry for key `k` in an insertion-ordered association
list, creating it with the default value first when absent (Python
dict semantics). -/
def propUpd (k : String) (f : PropInfo → PropInfo) :
    List (String × PropInfo) → List (String × PropInfo)
  | [] => [(k, f {})]
  | (k0, v) :: rest =>
    if k0 = k then (k0, f v) :: rest else (k0, v) :: propUpd k f rest

/-- Python `set.add` on a list-modelled set of strings. -/
def addUsed (used : List String) (n : String) : List String :=
  if used.contains n then used else used ++ [n]

/-- Python `s[4:]`. -/
def pyDropStr (s : String) (n : Nat) : String := String.mk (s.data.drop n)

/-- The accessor-collection loop (source lines 1750–1770): for every
valid method, record `get_X` methods with no parameters and a non-void
return as the getter of `X`, and `set_X` methods with one parameter
and a void return as the setter of `X`; both are remembered in
`methods_used_as_properties`.  `none` propagates an exception raised
by `is_valid_method`. -/
def collectPropsO (methods : List MethodDef) (ns : String) (imp : List String)
    (reg : Registry) : Option (List (String × PropInfo) × List String) :=
  methods.foldl (fun acc m =>
    match acc with
    | none => none
    | some (pm, used) =>
      match is_valid_methodO m (some ns) (some imp) reg with
      | none => none
      | some false => some (pm, used)
      | some true =>
        if pyStartsWith m.name "get_" && m.parameters.isEmpty && m.return_type ≠ "Void" then
          let pn := pyDropStr m.name 4
          let pm1 := propUpd pn (fun i => { i with get := some m, type := some m.return_type }) pm
          some (pm1, addUsed used m.name)
        else if pyStartsWith m.name "set_" && m.parameters.length = 1 && m.return_type = "Void" then
          let pn := pyDropStr m.name 4
          let t0 : Option String :=
            match m.parameters with
            | p :: _ => some p.type
            | [] => none
          let pm1 := propUpd pn (fun i =>
            let i1 := { i with set := some m }
            if i1.type.isNone then { i1 with type := t0 } else i1) pm
          some (pm1, addUsed used m.name)
        else some (pm, used))
    (some ([], []))

/-- Lexicographic `≤` on character lists (Python string comparison by
code point). -/
def charListLe : List Char → List Char → Bool
  | [], _ => true
  | _ :: _, [] => false
  | a :: as, b :: bs =>
    if a.val < b.val then true
    else if b.val < a.val then false
    else charListLe as bs

/-- Stable insertion into a key-sorted association list. -/
def insertByKey (x : String × PropInfo) : List (String × PropInfo) → List (String × PropInfo)
  | [] => [x]
  | y :: ys => if charListLe x.1.data y.1.data then x :: y :: ys else y :: insertByKey x ys

/-- `sorted(property_methods.items())` (source line 1777): the keys are
unique, so Python's tuple sort is a sort by key. -/
def sortPropsByKey (l : List (String × PropInfo)) : List (String × PropInfo) :=
  l.foldr insertByKey []

/-- The property-generation loop reduced to its observable plan (source
lines 1772–1810): which property names are emitted, and the final
`methods_used_as_properties` set after the skip-name and
unresolvable-type discards.  The trailing `Nat` is the
`unicode_property_counter`. -/
def genPropsPlan (pm : List (String × PropInfo)) (used0 : List String) (ns : String)
    (imp : List String) (reg : Registry) : List String × List String × Nat :=
  (sortPropsByKey pm).foldl (fun (st : List String × List String × Nat) entry =>
    let names := st.1
    let used := st.2.1
    let ucount := st.2.2
    let pn := entry.1
    let info := entry.2
    let isU := is_unicode_name pn
    let ucount1 := if isU then ucount + 1 else ucount
    let disp := if isU then "unicode_property_" ++ toString (ucount + 1) else pn
    if SKIP_PROPERTY_NAMES.contains pn then
      let used1 := if info.get.isSome then used.filter (fun x => x ≠ "get_" ++ pn) else used
      let used2 := if info.set.isSome then used1.filter (fun x => x ≠ "set_" ++ pn) else used1
      (names, used2, ucount1)
    else
      match map_type (info.type.getD "") with
      | none => (names, used, ucount1)
      | some _ =>
        if !is_type_resolvable (info.type.getD "") (some ns) (some imp) reg then
          let used1 := if info.get.isSome then used.filter (fun x => x ≠ "get_" ++ pn) else used
          let used2 := if info.set.isSome then used1.filter (fun x => x ≠ "set_" ++ pn) else used1
          (names, used2, ucount1)
        else
          (names ++ [disp], used, ucount1))
    ([], used0, 0)

/-- The `valid_methods` filter (source line 1872): public, valid, and
not consumed by a property.  `none` propagates an exception raised by
`is_valid_method`. -/
def validMethodsO (methods : List MethodDef) (used : List String) (ns : String)
    (imp : List String) (reg : Registry) : Option (List MethodDef) :=
  match methods with
  | [] => some []
  | m :: ms =>
    if m.visibility ≠ "public" then validMethodsO ms used ns imp reg
    else
      match is_valid_methodO m (some ns) (some imp) reg with
      | none => none
      | some false => validMethodsO ms used ns imp reg
      | some true =>
        if used.contains m.name then validMethodsO ms used ns imp reg
        else (validMethodsO ms used ns imp reg).map (m :: ·)

/-- The deduplication key of a method (source lines 1875–1891): a
unicode-named method keys on an RVA placeholder and is dropped
entirely when it has no RVA; otherwise the sanitized name; parameter
types are mapped, with generic parameters collapsed to `object`. -/
def methodSigKey (m : MethodDef) : Option (String × List (Option String)) :=
  let nameKey : Option String :=
    if is_unicode_name m.name then
      match m.rva with
      | some r => some ("__unicode_method_rva_" ++ r ++ "__")
      | none => none
    else sanitize_name m.name
  nameKey.map fun nk =>
    (nk, m.parameters.map (fun p =>
      if is_generic_type_param p.type then some "object" else map_type p.type))

/-- The signature-deduplication pass (source lines 1873–1894): keep the
first method for each signature key, dropping methods with no key. -/
def dedupMethods (ms : List MethodDef) : List MethodDef :=
  (ms.foldl (fun (st : List (String × List (Option String)) × List MethodDef) m =>
    match methodSigKey m with
    | none => st
    | some key => if st.1.contains key then st else (st.1 ++ [key], st.2 ++ [m]))
    ([], [])).2

/-- The display-name choice at body generation (source lines
1900–1917): a unicode-named method without an RVA produces nothing
(`continue`); with an RVA it gets a counter-based placeholder and
RVA-based calls; other methods use their sanitized name. -/
def methodEmitNameO (m : MethodDef) (ucount : Nat) : Option (String × Bool × Nat) :=
  if is_unicode_name m.name then
    match m.rva with
    | some _ => some ("unicode_method_" ++ toString (ucount + 1), true, ucount + 1)
    | none => none
  else
    match sanitize_name m.name with
    | some n => some (n, false, ucount)
    | none => none

/-- The member plan of one class (source lines 1740–1894): emitted
property names and the deduplicated method list. -/
def classPlanO (methods : List MethodDef) (ns : String) (imp : List String)
    (reg : Registry) : Option (List String × List MethodDef) :=
  match collectPropsO methods ns imp reg with
  | none => none
  | some (pm, used0) =>
    let plan := genPropsPlan pm used0 ns imp reg
    match validMethodsO methods plan.2.1 ns imp reg with
    | none => none
    | some vm => some (plan.1, dedupMethods vm)

/-! ## Smart-using conflict resolution (source lines 560–727)

`type_refs`, the namespace→types map, the core namespace set and the
candidate namespaces are Python sets; the emitter iterates the
candidate set, whose enumeration order is the one source of
nondeterminism in the pipeline.  The enumeration is made explicit as a
list parameter so that claim C9 can quantify over it. -/

/-- `detect_ambiguous_types`' per-type list of defining namespaces
(source lines 568–583): the current namespace first when it defines
the type, then each candidate that defines it, in enumeration order,
without duplicates. -/
def definingNamespaces (tn : String) (current : String)
    (m : List (String × List String)) (cands : List String) : List String :=
  let init :=
    match m.lookup current with
    | some ts => if ts.contains tn then [current] else []
    | none => []
  cands.foldl (fun acc ns =>
    match m.lookup ns with
    | some ts => if ts.contains tn && !acc.contains ns then acc ++ [ns] else acc
    | none => acc) init

/-- Whether `resolve_using_conflicts` puts a candidate namespace in the
`safe` set (source lines 609–647): it must provide at least one needed
type, and no needed type may be ambiguous against a core namespace or
the current namespace. -/
def acceptCandidate (core : List String) (current : String)
    (m : List (String × List String)) (typeRefs : List String)
    (allCands : List String) (ns : String) : Bool :=
  if core.contains ns then false
  else if ns = current then false
  else if (m.lookup ns).isNone then false
  else
    let tys := (m.lookup ns).getD []
    let need := typeRefs.filter (fun tn => tys.contains tn)
    if need.isEmpty then false
    else
      !(need.any fun tn =>
        let defi := definingNamespaces tn current m allCands
        if defi.length > 1 then
          let other := defi.filter (fun n => n ≠ ns)
          other.any (fun n => core.contains n) || other.contains current
        else false)

/-- `final_namespaces` (source lines 698–706) followed by
`sorted(final_namespaces)` (source line 710): every core namespace in
`safe` is skipped again, and each accepted candidate already provides
a needed type and appears in the map, so the result is exactly the
accepted candidates, deduplicated and sorted. -/
def finalNamespaces (core : List String) (current : String)
    (m : List (String × List String)) (typeRefs : List String)
    (cands : List String) : List String :=
  List.insertionSort (fun a b : String => a ≤ b)
    ((cands.filter (acceptCandidate core current m typeRefs (cands ++ core))).dedup)

/-- The generated-namespace using block (source lines 708–712). -/
def generatedUsingBlock (core : List String) (current : String)
    (m : List (String × List String)) (typeRefs : List String)
    (cands : List String) : List String :=
  let fin := finalNamespaces core current m typeRefs cands
  if fin.isEmpty then []
  else
    ["// Generated namespace references (based on type usage)"]
    ++ fin.map (fun ns => "using " ++ ns ++ ";")
    ++ [""]

/-- A line starting with `// RVA:` in a methods section; `v` is the
result of extracting the hexadecimal address. -/
def rvaLine (v : Option String) : Line := { rvaComment := some v }

/-- A line matching `METHOD_RE`. -/
def methodLine (mm : MethodMatch) : Line := { methodMatch := some mm }

/-- A line matching `FIELD_RE`. -/
def fieldLine (f : FieldDef) : Line := { fieldMatch := some f }

/-- The admission test of `build_type_registry`'s loop (source lines
398–406): named, public, and not a unicode-obfuscated base name;
together with `registryHasContent`, it decides membership in
`GENERATED_TYPES`. -/
def registryEligible (t : TypeDef) : Bool :=
  !t.name.data.isEmpty && t.visibility = "public"
    && !is_unicode_name (baseNameTickAngle t.name) && registryHasContent t

/-- Sample input: a type declared `public sealed class S` in the dump
(the `sealed` modifier is discarded by `CLASS_HEADER_RE`). -/
def sampleSealedS : TypeDef :=
  { dll := none, namespc := some "N", kind := "class", name := "S", base_type := none,
    visibility := "public",
    fields := [{ name := "f", type := "Int32", visibility := "public" }] }

/-- Sample input: `public class C : S` with one method. -/
def sampleSubC : TypeDef :=
  { dll := none, namespc := some "N", kind := "class", name := "C", base_type := some "S",
    visibility := "public",
    methods := [{ name := "M", return_type := "Void", is_static := false, visibility := "public" }] }

/-- Sample input: a public enum with base `Enum` (which is in
`SKIP_BASE_TYPES`) and one constant. -/
def sampleEnumE2 : TypeDef :=
  { dll := none, namespc := some "N", kind := "enum", name := "E2", base_type := some "Enum",
    visibility := "public",
    fields := [{ name := "A", type := "E2", visibility := "public", is_const := true, value := some "0" }] }

/-! ## Theorems -/

/-- C1 (counterexample): `Foo` is registered with content in the two
eligible namespaces `A` and `B`; a class in namespace `C` has base
type `Foo`, and neither `A` nor `B` is `C` or an imported namespace.
The claim says the emitted base-type reference is fully qualified with
the owning namespace; the code instead fails `is_type_resolvable` and
drops the reference, falling back to `Il2CppObject`. -/
theorem C1_counterexample :
    (classBasePart (some "Foo") "C" ALWAYS_IMPORTED_NAMESPACES
      (build_type_registry
        [{ dll := none, namespc := some "A", kind := "class", name := "Foo",
           base_type := none, visibility := "public",
           fields := [{ name := "x", type := "Int32", visibility := "public" }] },
         { dll := none, namespc := some "B", kind := "class", name := "Foo",
           base_type := none, visibility := "public",
           fields := [{ name := "x", type := "Int32", visibility := "public" }] }])
      = " : Il2CppObject")
    ∧ (" : Il2CppObject" ≠ " : A.Foo") := by
  constructor <;> decide

/-- C2 (counterexample): `S` is declared `public sealed class S` in the
dump (the header regex discards the `sealed` modifier, and no
sealed-type registry exists anywhere in the source), and `C : S` is a
public class with a method.  The claim says `C` is excluded from
`generatedTypes` because its base type is a previously-registered
sealed type; the code registers `C` as generated. -/
theorem C2_counterexample :
    ((build_type_registry
      [{ dll := none, namespc := some "N", kind := "class", name := "S",
         base_type := none, visibility := "public",
         fields := [{ name := "f", type := "Int32", visibility := "public" }] },
       { dll := none, namespc := some "N", kind := "class", name := "C",
         base_type := some "S", visibility := "public",
         methods := [{ name := "M", return_type := "Void", is_static := false,
                       visibility := "public" }] }]).generated).contains ("C", "N")
      = true := by
  decide

/-- C3 (code evaluated at the failing input): the dump line
`public Void .foo()` inside a `// Methods` section parses to a method
named `.foo` (the name slot of `METHOD_RE` is `\S+`).  `is_valid_method`
then evaluates `parts[0][0]` with `parts = ".foo".split(".") = ["", "foo"]`,
an out-of-range index on the empty string — the modelled result is
`none`, an uncaught `IndexError`, contradicting the spec's no-exception
contract. -/
theorem C3_index_error_on_dotted_method_name :
    (scanLines
        [{ methodMatch := some { vis := "public", isStatic := false, ret := "Void",
                                 name := ".foo", paramBlock := "" } }]
        { inMethods := true,
          acc := { dll := none, namespc := some "N", kind := "class", name := "A",
                   base_type := none, visibility := "public" } }).methods
      = [{ name := ".foo", return_type := "Void", is_static := false,
           visibility := "public" }]
    ∧ is_valid_methodO
        { name := ".foo", return_type := "Void", is_static := false, visibility := "public" }
        (some "N") (some ALWAYS_IMPORTED_NAMESPACES) {} = none := by
  constructor <;> decide

/-- C4 (counterexample): an `internal` zero-parameter non-void getter
`get_Type` is a matched accessor whose property name `Type` is in the
skip set; the claim says such accessors are emitted as plain methods
instead, but the plain-method filter admits only `public` methods, so
the accessor is dropped entirely: no property and no method. -/
theorem C4_counterexample :
    classPlanO
      [{ name := "get_Type", return_type := "Int32", is_static := false,
         visibility := "internal" }]
      "N" ALWAYS_IMPORTED_NAMESPACES {} = some ([], []) := by
  decide

/-- C6 (counterexample): the parameter token `ref Int32` of a
delegate's `Invoke` method is normalized to the `__no_name__`
sentinel, yet the method is emitted: delegate emission never calls
`is_valid_method`, so the malformed parameter appears (modifier
dropped) in the emitted delegate signature, contradicting the claim
that such methods are never emitted. -/
theorem C6_counterexample :
    emitDelegates
      [{ dll := none, namespc := some "N", kind := "class", name := "Foo",
         base_type := some "MulticastDelegate", visibility := "public",
         methods := [buildMethod
           { vis := "public", isStatic := false, ret := "Void",
             name := "Invoke", paramBlock := "ref Int32" } none] }]
      "N" ALWAYS_IMPORTED_NAMESPACES {}
      = ["    public delegate void Foo(int __no_name__);", ""] := by
  decide

/-- A method whose deduplication key is `none` is never added by the
deduplication fold. -/
theorem not_mem_dedup_foldl_of_key_none (m : MethodDef) (hkey : methodSigKey m = none) :
    ∀ (ms : List MethodDef) (st : List (String × List (Option String)) × List MethodDef),
      m ∉ st.2 → m ∉ (ms.foldl (fun st m =>
        match methodSigKey m with
        | none => st
        | some key => if st.1.contains key then st else (st.1 ++ [key], st.2 ++ [m])) st).2 := by
  intro ms
  induction ms with
  | nil => intro st h; exact h
  | cons m0 ms ih =>
    intro st h
    simp only [List.foldl_cons]
    apply ih
    cases hk : methodSigKey m0 with
    | none => simpa [hk] using h
    | some key =>
      by_cases hc : key ∈ st.1
      · simpa [hk, hc] using h
      · simp only [hk]
        rw [if_neg (by simpa using hc)]
        simp only [List.mem_append, List.mem_singleton]
        rintro (hm | rfl)
        · exact h hm
        · rw [hkey] at hk
          cases hk

/-- C10: a method whose name contains a non-ASCII character and that
has no RVA is silently dropped from emission: it never survives
signature deduplication, and body generation produces no name (and
hence no lines) for it. -/
theorem C10_unicode_method_without_rva_dropped (ms : List MethodDef) (m : MethodDef)
    (uc : Nat) (hu : is_unicode_name m.name = true) (hr : m.rva = none) :
    m ∉ dedupMethods ms ∧ methodEmitNameO m uc = none := by
  have hkey : methodSigKey m = none := by
    unfold methodSigKey
    simp [hu, hr]
  constructor
  · unfold dedupMethods
    exact not_mem_dedup_foldl_of_key_none m hkey ms ([], []) (by simp)
  · unfold methodEmitNameO
    simp [hu, hr]

/-- C10 (witness): a concrete obfuscated-name method with no RVA,
dropped by both stages. -/
theorem C10_witness :
    (is_unicode_name "ಠ_ಠ" = true ∧
      ({ name := "ಠ_ಠ", return_type := "Void", is_static := false,
         visibility := "public" } : MethodDef).rva = none)
    ∧ ({ name := "ಠ_ಠ", return_type := "Void", is_static := false,
         visibility := "public" } : MethodDef) ∉
        dedupMethods [{ name := "ಠ_ಠ", return_type := "Void", is_static := false,
                        visibility := "public" }]
    ∧ methodEmitNameO
        { name := "ಠ_ಠ", return_type := "Void", is_static := false,
          visibility := "public" } 0 = none := by
  refine ⟨⟨by decide, rfl⟩, ?_⟩
  exact C10_unicode_method_without_rva_dropped _ _ 0 (by decide) rfl

/-- C8 (counterexample): the identifier `TA_x` starts with `T` followed
by an uppercase letter and contains an underscore, so the claim's
underscore exception says the classifier returns false; the source
classifier has no underscore test and returns true. -/
theorem C8_counterexample :
    is_generic_type_param "TA_x" = true ∧ genericParamClaimC8 "TA_x" = false := by
  constructor <;> decide

/-- C8 (amended): the generic-parameter classifier returns true iff the
identifier (after stripping trailing `[]` and `?`) is a known fixed
token, or a single uppercase letter, or starts with `T` followed by an
uppercase character and is not in the known-real-type exception list.
There is no underscore exception. -/
theorem C8_amended_classifier (type_name : String) :
    is_generic_type_param type_name = genericParamAmendedC8 type_name := by
  unfold is_generic_type_param genericParamAmendedC8
  set base := rstripSet (rstripSet type_name ['[', ']']) ['?'] with hbase
  by_cases h1 : GENERIC_TYPE_PARAMS.contains base
  · simp [h1, Bool.or_assoc]
  · simp only [h1, if_false, Bool.false_or]
    by_cases h2 : (base.data.length = 1 && pyStrIsUpper base) = true
    · simp [h2, Bool.or_assoc]
    · simp only [h2, if_false, Bool.false_or]
      cases hd : base.data with
      | nil => simp [h1, h2]
      | cons c0 rest =>
        cases rest with
        | nil => simp [h1, h2]
        | cons c1 rest2 =>
          by_cases h3 : (c0 = 'T' && c1.isUpper) = true
          · by_cases h4 : KNOWN_T_TYPES.contains base
            · simp [h1, h2, h3, h4]
            · simp [h1, h2, h3, h4]
          · simp [h1, h2, h3]

/-- An inert line is skipped by the scan without any state change. -/
theorem scanLines_skip_inert (l : Line) (hI : InertLine l) (ls : List Line) (st : ScanState)
    (hd : 0 < st.depth) : scanLines (l :: ls) st = scanLines ls st := by
  obtain ⟨h1, h2, h3, h4, h5, h6, h7, h8, h9⟩ := hI
  conv_lhs => rw [scanLines]
  simp only [h1, h2, h3, h4, h5, h6, h7, h8, h9, Nat.cast_zero, add_zero, sub_zero]
  rw [if_neg (by omega)]
  unfold lineAction
  simp [h3, h4, h5, h6, h7, h8, h9]

/-- A block of inert lines is skipped wholesale. -/
theorem scanLines_skip_inert_list (mids : List Line) (hI : ∀ l ∈ mids, InertLine l)
    (ls : List Line) (st : ScanState) (hd : 0 < st.depth) :
    scanLines (mids ++ ls) st = scanLines ls st := by
  induction mids with
  | nil => rfl
  | cons l mids ih =>
    rw [List.cons_append, scanLines_skip_inert l (hI l (by simp)) _ st hd]
    exact ih (fun x hx => hI x (by simp [hx]))

/-- An `// RVA:` comment line in a methods section replaces the pending
RVA and changes nothing else. -/
theorem scanLines_rva_cons (v : Option String) (ls : List Line) (st : ScanState)
    (hd : 0 < st.depth) (hM : st.inMethods = true) :
    scanLines (rvaLine v :: ls) st = scanLines ls { st with pendingRva := v } := by
  conv_lhs => rw [scanLines]
  simp only [rvaLine, Nat.cast_zero, add_zero, sub_zero]
  rw [if_neg (by omega)]
  unfold lineAction
  simp [hM]

/-- A method line in a methods section appends the built method with
the pending RVA attached, and clears the pending RVA. -/
theorem scanLines_method_cons (mm : MethodMatch) (ls : List Line) (st : ScanState)
    (hd : 0 < st.depth) (hM : st.inMethods = true) :
    scanLines (methodLine mm :: ls) st =
      scanLines ls { st with
        pendingRva := none
        acc := { st.acc with methods := st.acc.methods ++ [buildMethod mm st.pendingRva] } } := by
  conv_lhs => rw [scanLines]
  simp only [methodLine, Nat.cast_zero, add_zero, sub_zero]
  rw [if_neg (by omega)]
  unfold lineAction
  simp [hM]

/-- C5: in a methods section, an RVA comment line is attached as the
`rva` of exactly the next parsed method: after arbitrary inert lines,
the first method line receives the captured address and the pending
value is cleared, so the following method line (with no intervening
RVA comment) receives `none`. -/
theorem C5_rva_attached_to_next_method_only (v : String) (mm1 mm2 : MethodMatch)
    (mids1 mids2 rest : List Line) (st : ScanState)
    (hd : st.depth = 1) (hM : st.inMethods = true)
    (h1 : ∀ l ∈ mids1, InertLine l) (h2 : ∀ l ∈ mids2, InertLine l) :
    scanLines
      (rvaLine (some v) :: (mids1 ++ (methodLine mm1 :: (mids2 ++ (methodLine mm2 :: rest))))) st
    = scanLines rest { st with
        pendingRva := none
        acc := { st.acc with methods :=
          st.acc.methods ++ [buildMethod mm1 (some v), buildMethod mm2 none] } } := by
  rw [scanLines_rva_cons _ _ _ (by omega) hM]
  rw [scanLines_skip_inert_list mids1 h1 _ _ (by simp [hd])]
  rw [scanLines_method_cons _ _ _ (by simp [hd]) (by simp [hM])]
  rw [scanLines_skip_inert_list mids2 h2 _ _ (by simp [hd])]
  rw [scanLines_method_cons _ _ _ (by simp [hd]) (by simp [hM])]
  simp

/-- C5 (witness): a concrete methods section with an RVA comment, an
unrelated comment line, and two methods; only the first method gets
the address. -/
theorem C5_witness :
    ((InertLine ({} : Line) ∧ (1 : Int) = 1)
      ∧ scanLines
          (rvaLine (some "0x52f1e0") ::
            ([] ++ (methodLine { vis := "public", isStatic := false, ret := "Void", name := "DoIt", paramBlock := "" } ::
              ([({} : Line)] ++ (methodLine { vis := "public", isStatic := true, ret := "Int32", name := "Count", paramBlock := "" } :: [])))))
          { inMethods := true,
            acc := { dll := none, namespc := some "N", kind := "class", name := "A", base_type := none, visibility := "public" } }
        = { dll := none, namespc := some "N", kind := "class", name := "A", base_type := none, visibility := "public",
            methods := [{ name := "DoIt", return_type := "Void", is_static := false, visibility := "public", rva := some "0x52f1e0" },
                        { name := "Count", return_type := "Int32", is_static := true, visibility := "public", rva := none }] }) := by
  constructor
  · exact ⟨by decide, rfl⟩
  · rw [C5_rva_attached_to_next_method_only "0x52f1e0" _ _ [] [({} : Line)] []
      _ rfl rfl (by intro l hl; cases hl) (by intro l hl; simp at hl; subst hl; decide)]
    decide

/-- C7: an enum constant whose numeric value lies outside the signed
32-bit range — on either side, below -2147483648 or above 2147483647 —
is dropped from the emitted enum body (its `valid_values` entry is
`none`), while the type-body parser keeps the field in the parsed
declaration; the enum declaration itself is still emitted, and an
in-range constant of the same enum survives into the emitted value
list. -/
theorem C7_enum_out_of_range_dropped
    (t : TypeDef) (f g : FieldDef) (v w : String) (iv jv : Int) (st : ScanState)
    (hval : f.value = some v)
    (hparse : pyInt (pyStrip (firstPart v "//")) = some iv)
    (hout : iv < -2147483648 ∨ 2147483647 < iv)
    (hg : g ∈ t.fields) (hgc : g.is_const = true) (hgt : g.type = t.name)
    (hgv : g.value = some w)
    (hgparse : pyInt (pyStrip (firstPart w "//")) = some jv)
    (hglo : -2147483648 ≤ jv) (hghi : jv ≤ 2147483647)
    (hkind : t.kind = "enum") (hvis : t.visibility = "public")
    (hn1 : '`' ∉ t.name.data) (hn2 : '<' ∉ t.name.data)
    (hn3 : '>' ∉ t.name.data)
    (hn4 : has_valid_csharp_identifier_chars t.name = true)
    (hn5 : t.name ∉ SKIP_NESTED_ENUM_NAMES)
    (hn6 : t.name ∉ SKIP_TYPES)
    (hstF : st.inFields = true) (hstD : 0 < st.depth) :
    enumConstProcess f = none
    ∧ ("    " ++ t.visibility ++ " enum " ++ t.name) ∈ emitEnums [t]
    ∧ (g.name, some (pyStrip (firstPart w "//"))) ∈ enumValidValues t
    ∧ (scanLines [fieldLine f] st).fields = st.acc.fields ++ [f] := by
  refine ⟨?_, ?_, ?_, ?_⟩
  · unfold enumConstProcess
    rw [hval]
    simp only [hparse]
    rw [if_pos]
    simp only [Bool.or_eq_true, decide_eq_true_eq]
    exact hout.symm
  · have hb : emitEnums [t] = enumBody t := by
      unfold emitEnums enumStep
      simp [hkind, hvis, hn1, hn2, hn3, hn4, hn5, hn6]
    rw [hb]
    unfold enumBody
    exact List.mem_cons_self _ _
  · unfold enumValidValues
    rw [List.mem_filterMap]
    refine ⟨g, ?_, ?_⟩
    · rw [List.mem_filter]
      exact ⟨hg, by simp [hgc, hgt]⟩
    · unfold enumConstProcess
      rw [hgv]
      simp only [hgparse]
      rw [if_neg]
      simp only [Bool.or_eq_true, decide_eq_true_eq]
      push_neg
      omega
  · conv_lhs => rw [scanLines]
    simp only [fieldLine, Nat.cast_zero, add_zero, sub_zero]
    rw [if_neg (by omega)]
    unfold lineAction
    simp [hstF, scanLines]

/-- C7 (witness): two concrete public enums, one with a constant
`Bad = 2147483648` (above the signed 32-bit range, with a trailing
comment as in the dump) and one with `Neg = -2147483649` (below the
range), each next to an in-range `Good = 0`; both out-of-range
constants are dropped from the body, both enums are still emitted, the
in-range constants survive, and parsing keeps `Bad`. -/
theorem C7_witness :
    (pyInt (pyStrip (firstPart "2147483648 // 0x80000000" "//")) = some 2147483648
      ∧ pyInt (pyStrip (firstPart "-2147483649" "//")) = some (-2147483649)
      ∧ pyInt (pyStrip (firstPart "0" "//")) = some 0)
    ∧ enumConstProcess { name := "Bad", type := "E", visibility := "public", is_const := true, value := some "2147483648 // 0x80000000" } = none
    ∧ enumConstProcess { name := "Neg", type := "E2", visibility := "public", is_const := true, value := some "-2147483649" } = none
    ∧ ("    " ++ "public" ++ " enum " ++ "E") ∈ emitEnums
        [{ dll := none, namespc := some "N", kind := "enum", name := "E", base_type := some "Enum", visibility := "public",
           fields := [{ name := "Bad", type := "E", visibility := "public", is_const := true, value := some "2147483648 // 0x80000000" },
                      { name := "Good", type := "E", visibility := "public", is_const := true, value := some "0" }] }]
    ∧ ("    " ++ "public" ++ " enum " ++ "E2") ∈ emitEnums
        [{ dll := none, namespc := some "N", kind := "enum", name := "E2", base_type := some "Enum", visibility := "public",
           fields := [{ name := "Neg", type := "E2", visibility := "public", is_const := true, value := some "-2147483649" },
                      { name := "Good", type := "E2", visibility := "public", is_const := true, value := some "0" }] }]
    ∧ ("Good", some (pyStrip (firstPart "0" "//"))) ∈ enumValidValues
        { dll := none, namespc := some "N", kind := "enum", name := "E", base_type := some "Enum", visibility := "public",
          fields := [{ name := "Bad", type := "E", visibility := "public", is_const := true, value := some "2147483648 // 0x80000000" },
                     { name := "Good", type := "E", visibility := "public", is_const := true, value := some "0" }] }
    ∧ ("Good", some (pyStrip (firstPart "0" "//"))) ∈ enumValidValues
        { dll := none, namespc := some "N", kind := "enum", name := "E2", base_type := some "Enum", visibility := "public",
          fields := [{ name := "Neg", type := "E2", visibility := "public", is_const := true, value := some "-2147483649" },
                     { name := "Good", type := "E2", visibility := "public", is_const := true, value := some "0" }] }
    ∧ (scanLines [fieldLine { name := "Bad", type := "E", visibility := "public", is_const := true, value := some "2147483648 // 0x80000000" }]
        { inFields := true,
          acc := { dll := none, namespc := some "N", kind := "enum", name := "E", base_type := some "Enum", visibility := "public" } }).fields
      = [{ name := "Bad", type := "E", visibility := "public", is_const := true, value := some "2147483648 // 0x80000000" }] := by
  refine ⟨⟨by decide, by decide, by decide⟩, ?_⟩
  have h := C7_enum_out_of_range_dropped
    { dll := none, namespc := some "N", kind := "enum", name := "E", base_type := some "Enum", visibility := "public",
      fields := [{ name := "Bad", type := "E", visibility := "public", is_const := true, value := some "2147483648 // 0x80000000" },
                 { name := "Good", type := "E", visibility := "public", is_const := true, value := some "0" }] }
    { name := "Bad", type := "E", visibility := "public", is_const := true, value := some "2147483648 // 0x80000000" }
    { name := "Good", type := "E", visibility := "public", is_const := true, value := some "0" }
    "2147483648 // 0x80000000" "0" 2147483648 0
    { inFields := true,
      acc := { dll := none, namespc := some "N", kind := "enum", name := "E", base_type := some "Enum", visibility := "public" } }
    rfl (by decide) (Or.inr (by decide)) (by decide) rfl rfl rfl (by decide) (by decide)
    (by decide) rfl rfl (by decide) (by decide) (by decide) (by decide) (by decide)
    (by decide) rfl (by decide)
  have h2 := C7_enum_out_of_range_dropped
    { dll := none, namespc := some "N", kind := "enum", name := "E2", base_type := some "Enum", visibility := "public",
      fields := [{ name := "Neg", type := "E2", visibility := "public", is_const := true, value := some "-2147483649" },
                 { name := "Good", type := "E2", visibility := "public", is_const := true, value := some "0" }] }
    { name := "Neg", type := "E2", visibility := "public", is_const := true, value := some "-2147483649" }
    { name := "Good", type := "E2", visibility := "public", is_const := true, value := some "0" }
    "-2147483649" "0" (-2147483649) 0
    { inFields := true,
      acc := { dll := none, namespc := some "N", kind := "enum", name := "E2", base_type := some "Enum", visibility := "public" } }
    rfl (by decide) (Or.inl (by decide)) (by decide) rfl rfl rfl (by decide) (by decide)
    (by decide) rfl rfl (by decide) (by decide) (by decide) (by decide) (by decide)
    (by decide) rfl (by decide)
  exact ⟨h.1, h2.1, h.2.1, h2.2.1, h.2.2.1, h2.2.2.1, by rw [h.2.2.2]; decide⟩

/-- The parameter-validation loop never returns `True` when some
parameter carries the `__no_name__` sentinel. -/
theorem checkParamsO_no_name_not_valid (cns : Option String) (imp : Option (List String))
    (reg : Registry) (mGen : Bool) (ps : List ParameterDef)
    (h : ∃ p ∈ ps, p.name = "__no_name__") :
    checkParamsO cns imp reg mGen ps ≠ some true := by
  induction ps with
  | nil => simp at h
  | cons q qs ih =>
    obtain ⟨p, hp, hname⟩ := h
    rcases List.mem_cons.mp hp with rfl | hmem
    · unfold checkParamsO
      rw [if_pos hname]
      simp
    · unfold checkParamsO
      split
      · simp
      · split
        · simp
        · split
          · simp
          · simp
          · split
            · simp
            · split
              · simp
              · split
                · simp
                · split
                  · simp
                  · split
                    · simp
                    · split
                      · simp
                      · exact ih ⟨p, hmem, hname⟩

/-- C6 (amended): a parameter token whose regex match captured a
modifier keyword in the type slot is normalized to that modifier, the
following token as the type, and the `__no_name__` sentinel as the
name; and no method containing such a parameter is ever validated by
`is_valid_method` (the result is a rejection or, for pathological
names, an exception — never acceptance), so it is not emitted as a
class method or property.  (Delegate emission bypasses this check; see
the counterexample.) -/
theorem C6_amended_no_name_param_rejected
    (tok : String) (g1 : Option String) (mod ty : String)
    (hmatch : paramRegexMatch tok = some (g1, mod, ty))
    (hmod : mod = "ref" ∨ mod = "out" ∨ mod = "in")
    (m : MethodDef) (cns : Option String) (imp : Option (List String)) (reg : Registry)
    (hp : ∃ p ∈ m.parameters, p.name = "__no_name__") :
    buildParam tok = some ⟨mod, ty, "__no_name__"⟩
    ∧ is_valid_methodO m cns imp reg ≠ some true := by
  constructor
  · unfold buildParam
    rw [hmatch]
    rcases hmod with h | h | h <;> subst h <;> simp
  · unfold is_valid_methodO
    repeat' split
    all_goals try simp
    all_goals by_cases hbg : ¬get_generic_type_params_from_method m = []
        ∧ is_backtick_generic m.return_type = true
    · rw [if_pos hbg]
      simp
    · rw [if_neg hbg]
      exact checkParamsO_no_name_not_valid _ _ _ _ _ hp

/-- C6 (witness): the token `ref Int32` is normalized to the sentinel
parameter, and the method parsed from `public Void f(ref Int32)` is
rejected by method validity. -/
theorem C6_amended_witness :
    (paramRegexMatch "ref Int32" = some (none, "ref", "Int32")
      ∧ (∃ p ∈ (buildMethod { vis := "public", isStatic := false, ret := "Void", name := "f", paramBlock := "ref Int32" } none).parameters,
          p.name = "__no_name__"))
    ∧ buildParam "ref Int32" = some ⟨"ref", "Int32", "__no_name__"⟩
    ∧ is_valid_methodO
        (buildMethod { vis := "public", isStatic := false, ret := "Void", name := "f", paramBlock := "ref Int32" } none)
        (some "N") (some ALWAYS_IMPORTED_NAMESPACES) {} ≠ some true := by
  refine ⟨⟨by decide, by decide⟩, ?_⟩
  exact C6_amended_no_name_param_rejected "ref Int32" none "ref" "Int32" (by decide)
    (Or.inl rfl) _ (some "N") (some ALWAYS_IMPORTED_NAMESPACES) {} (by decide)

/-! Auxiliary facts about the Python string primitives, used to
evaluate them on plain alphanumeric identifiers. -/

theorem mk_data (s : String) : String.mk s.data = s := rfl

theorem splitOnCharList_sep_not_mem (c : Char) (cs acc : List Char) (fuel : Nat)
    (h : c ∉ cs) : splitOnCharList [c] fuel cs acc = [acc.reverse ++ cs] := by
  induction cs generalizing fuel acc with
  | nil => cases fuel <;> simp [splitOnCharList]
  | cons x xs ih =>
    have hcx : c ≠ x := fun hcx => h (hcx ▸ List.mem_cons_self x xs)
    have hxs : c ∉ xs := fun hm => h (List.mem_cons_of_mem x hm)
    cases fuel with
    | zero => simp [splitOnCharList]
    | succ n =>
      rw [splitOnCharList]
      rw [if_neg]
      · rw [ih _ _ hxs]
        simp
      · simp [List.isPrefixOf]
        intro hc
        exact absurd hc hcx

theorem pySplit_no_sep (s : String) (c : Char) (sep : String)
    (hsep : sep.data = [c]) (h : c ∉ s.data) : pySplit s sep = [s] := by
  unfold pySplit
  rw [hsep, splitOnCharList_sep_not_mem c _ _ _ h]
  simp [mk_data]

theorem firstPart_no_sep (s : String) (c : Char) (sep : String)
    (hsep : sep.data = [c]) (h : c ∉ s.data) : firstPart s sep = s := by
  unfold firstPart
  rw [pySplit_no_sep s c sep hsep h]

theorem rstripSet_no_strip (s : String) (cs : List Char)
    (h : ∀ x ∈ s.data, cs.contains x = false) : rstripSet s cs = s := by
  unfold rstripSet
  have hdw : s.data.reverse.dropWhile (fun c => cs.contains c) = s.data.reverse := by
    cases hrev : s.data.reverse with
    | nil => simp
    | cons x xs =>
      rw [List.dropWhile_cons]
      have hx : x ∈ s.data := by
        have hx0 : x ∈ s.data.reverse := by rw [hrev]; exact List.mem_cons_self x xs
        simpa using hx0
      rw [h x hx]
      simp
  rw [hdw]
  simp [mk_data]

theorem lstripSet_no_strip (s : String) (cs : List Char)
    (h : ∀ x ∈ s.data, cs.contains x = false) : lstripSet s cs = s := by
  unfold lstripSet
  have hdw : s.data.dropWhile (fun c => cs.contains c) = s.data := by
    cases hd : s.data with
    | nil => simp
    | cons x xs =>
      rw [List.dropWhile_cons]
      have hx : x ∈ s.data := by rw [hd]; exact List.mem_cons_self x xs
      rw [h x hx]
      simpa using hd.symm
  rw [hdw]

theorem pyStrip_no_strip (s : String)
    (h : ∀ x ∈ s.data, pyWhitespace.contains x = false) : pyStrip s = s := by
  unfold pyStrip
  have h1 : s.data.dropWhile (fun c => pyWhitespace.contains c) = s.data := by
    cases hd : s.data with
    | nil => simp
    | cons x xs =>
      rw [List.dropWhile_cons]
      have hx : x ∈ s.data := by rw [hd]; exact List.mem_cons_self x xs
      rw [h x hx]
      simpa using hd.symm
  rw [h1]
  have h2 : s.data.reverse.dropWhile (fun c => pyWhitespace.contains c) = s.data.reverse := by
    cases hrev : s.data.reverse with
    | nil => simp
    | cons x xs =>
      rw [List.dropWhile_cons]
      have hx : x ∈ s.data := by
        have hx0 : x ∈ s.data.reverse := by rw [hrev]; exact List.mem_cons_self x xs
        simpa using hx0
      rw [h x hx]
      simp
  rw [h2]
  simp [mk_data]

/-- C1 (amended): a plain type name registered only in namespaces that
are neither the referencing namespace nor imported — in particular one
registered in two or more such eligible namespaces — fails
`is_type_resolvable`, and the class-emission base cleanup therefore
drops the reference and falls back to `Il2CppObject` instead of
qualifying it with the owning namespace. -/
theorem C1_amended_unreachable_not_qualified
    (reg : Registry) (name ns : String) (imp nss : List String)
    (hplain : ∀ c ∈ name.data, (c.isAlphanum || c = '_') = true)
    (hne : name.data ≠ [])
    (hlen2 : 2 ≤ nss.length)
    (hlook : reg.typeReg.lookup name = some nss)
    (hnacc : ∀ n ∈ nss, n ≠ ns ∧ imp.contains n = false)
    (hngen : is_generic_type_param name = false)
    (hnmap : TYPE_MAP.lookup name = none)
    (hnknown : name ∉ KNOWN_TYPES)
    (hnI : ∀ c1 cs, name.data = 'I' :: c1 :: cs → c1.isUpper = false)
    (hnprob : name ∉ PROBLEM_BASE_TYPES)
    (hnobf : is_obfuscated_type name = false)
    (hnkb : name ∉ KNOWN_BASE_TYPES) :
    is_type_resolvable name (some ns) (some imp) reg = false
    ∧ classBasePart (some name) ns imp reg = " : Il2CppObject" := by
  have hnotmem : ∀ c : Char, (c.isAlphanum || c = '_') = false → c ∉ name.data := by
    intro c hc hmem
    rw [hplain c hmem] at hc
    cases hc
  have hlt : '<' ∉ name.data := hnotmem '<' (by decide)
  have hgt : '>' ∉ name.data := hnotmem '>' (by decide)
  have hbr : '[' ∉ name.data := hnotmem '[' (by decide)
  have hbr2 : ']' ∉ name.data := hnotmem ']' (by decide)
  have htick : '`' ∉ name.data := hnotmem '`' (by decide)
  have hq : '?' ∉ name.data := hnotmem '?' (by decide)
  have hcomma : ',' ∉ name.data := hnotmem ',' (by decide)
  have hclt : name.data.contains '<' = false := by
    simpa using hlt
  have hcgt : name.data.contains '>' = false := by
    simpa using hgt
  have hctick : name.data.contains '`' = false := by
    simpa using htick
  have hbase : resolvableBaseName name = name := by
    unfold resolvableBaseName
    rw [firstPart_no_sep name '<' "<" rfl hlt]
    rw [firstPart_no_sep name '[' "[" rfl hbr]
    rw [firstPart_no_sep name '`' (String.mk ['`']) rfl htick]
    rw [rstripSet_no_strip name ['?'] ?hq1]
    rw [lstripSet_no_strip name ['?'] ?hq1]
    case hq1 =>
      intro x hx
      rcases eq_or_ne x '?' with rfl | hxne
      · exact absurd hx hq
      · simp [hxne]
  have hres : is_type_resolvable name (some ns) (some imp) reg = false := by
    unfold is_type_resolvable isTypeResolvableFuel
    rw [if_neg (by simpa using hne)]
    simp only [hclt, hcgt, hctick, hbase, Bool.and_self, Bool.and_false, Bool.false_and,
      Bool.or_self, Bool.false_or, Bool.or_false, hngen, hnmap, Option.isSome_none]
    rw [if_neg (by simp)]
    rw [if_neg (by simp)]
    rw [if_neg (by simpa using hnknown)]
    rw [if_neg (by simp)]
    rw [hlook]
    simp only []
    rw [List.any_eq_false]
    intro n hn
    obtain ⟨hne1, hne2⟩ := hnacc n hn
    have hne2m : n ∉ imp := by simpa using hne2
    simp [hne1, hne2m]
  refine ⟨hres, ?_⟩
  have hb1 : pyStrip (rstripSet name [',']) = name := by
    rw [rstripSet_no_strip name [','] ?hc1]
    case hc1 =>
      intro x hx
      rcases eq_or_ne x ',' with rfl | hxne
      · exact absurd hx hcomma
      · simp [hxne]
    apply pyStrip_no_strip
    intro x hx
    have hsp : x ≠ ' ' := fun he => absurd hx (he ▸ hnotmem ' ' (by decide))
    have htb : x ≠ '\t' := fun he => absurd hx (he ▸ hnotmem '\t' (by decide))
    have hnl : x ≠ '\n' := fun he => absurd hx (he ▸ hnotmem '\n' (by decide))
    have hcr : x ≠ '\r' := fun he => absurd hx (he ▸ hnotmem '\r' (by decide))
    simp [pyWhitespace, hsp, htb, hnl, hcr]
  have hif : cleanBaseIface name = some name := by
    unfold cleanBaseIface
    rcases hd : name.data with _ | ⟨c0, _ | ⟨c1, rest⟩⟩
    · rfl
    · rfl
    · by_cases hc0 : c0 = 'I'
      · subst hc0
        simp [hnI c1 rest hd]
      · simp [hc0]
  have hpr : cleanBaseProblem (some name) = some name := by
    unfold cleanBaseProblem
    simp [hnprob]
  have hob : cleanBaseObf (some name) = some name := by
    unfold cleanBaseObf
    simp [hnobf]
  have hrs : cleanBaseResolve (some name) ns imp reg = none := by
    unfold cleanBaseResolve
    simp [hres, hnkb]
  have hcb : cleanClassBase (some name) ns imp reg = none := by
    simp only [cleanClassBase]
    rw [hctick]
    simp only [Bool.false_eq_true, if_false]
    rw [hb1, hif, hpr, hob, hrs]
  unfold classBasePart
  rw [hcb]

/-- C1 (amended, witness): `Foo` registered with content in eligible
namespaces `A` and `B`, referenced from namespace `C` with the fixed
always-imported set; the reference is unresolvable and the base falls
back to `Il2CppObject`. -/
theorem C1_amended_witness :
    ((build_type_registry
        [{ dll := none, namespc := some "A", kind := "class", name := "Foo", base_type := none, visibility := "public",
           fields := [{ name := "x", type := "Int32", visibility := "public" }] },
         { dll := none, namespc := some "B", kind := "class", name := "Foo", base_type := none, visibility := "public",
           fields := [{ name := "x", type := "Int32", visibility := "public" }] }]).typeReg.lookup "Foo"
        = some ["A", "B"])
    ∧ is_type_resolvable "Foo" (some "C") (some ALWAYS_IMPORTED_NAMESPACES)
        (build_type_registry
          [{ dll := none, namespc := some "A", kind := "class", name := "Foo", base_type := none, visibility := "public",
             fields := [{ name := "x", type := "Int32", visibility := "public" }] },
           { dll := none, namespc := some "B", kind := "class", name := "Foo", base_type := none, visibility := "public",
             fields := [{ name := "x", type := "Int32", visibility := "public" }] }]) = false
    ∧ classBasePart (some "Foo") "C" ALWAYS_IMPORTED_NAMESPACES
        (build_type_registry
          [{ dll := none, namespc := some "A", kind := "class", name := "Foo", base_type := none, visibility := "public",
             fields := [{ name := "x", type := "Int32", visibility := "public" }] },
           { dll := none, namespc := some "B", kind := "class", name := "Foo", base_type := none, visibility := "public",
             fields := [{ name := "x", type := "Int32", visibility := "public" }] }]) = " : Il2CppObject" := by
  refine ⟨by decide, ?_⟩
  have h := C1_amended_unreachable_not_qualified
    (build_type_registry
      [{ dll := none, namespc := some "A", kind := "class", name := "Foo", base_type := none, visibility := "public",
         fields := [{ name := "x", type := "Int32", visibility := "public" }] },
       { dll := none, namespc := some "B", kind := "class", name := "Foo", base_type := none, visibility := "public",
         fields := [{ name := "x", type := "Int32", visibility := "public" }] }])
    "Foo" "C" ALWAYS_IMPORTED_NAMESPACES ["A", "B"]
    (by decide) (by decide) (by decide) (by decide)
    (by decide) (by decide) (by decide) (by decide)
    (by intro c1 cs hcs; cases hcs) (by decide) (by decide) (by decide)
  exact h

theorem mem_addToPairSet (s : List (String × String)) (q p : String × String) :
    p ∈ addToPairSet s q ↔ p ∈ s ∨ p = q := by
  unfold addToPairSet
  by_cases h : s.contains q = true
  · rw [if_pos h]
    constructor
    · exact fun hp => Or.inl hp
    · rintro (hp | rfl)
      · exact hp
      · simpa using h
  · rw [if_neg h]
    simp

theorem registryStep_generated (reg : Registry) (t : TypeDef) :
    (registryStep reg t).generated =
      if registryEligible t = true then addToPairSet reg.generated (t.name, nsOf t)
      else reg.generated := by
  unfold registryStep registryEligible
  repeat' split <;> simp_all

theorem mem_generated_registryStep (reg : Registry) (t : TypeDef) (p : String × String) :
    p ∈ (registryStep reg t).generated ↔
      p ∈ reg.generated ∨ (registryEligible t = true ∧ p = (t.name, nsOf t)) := by
  rw [registryStep_generated]
  by_cases h : registryEligible t = true
  · simp [h, mem_addToPairSet]
  · simp [h]

theorem mem_generated_foldl (ts : List TypeDef) (reg : Registry) (p : String × String) :
    p ∈ (ts.foldl registryStep reg).generated ↔
      p ∈ reg.generated ∨ ∃ t ∈ ts, registryEligible t = true ∧ p = (t.name, nsOf t) := by
  induction ts generalizing reg with
  | nil => simp
  | cons t ts ih =>
    rw [List.foldl_cons, ih, mem_generated_registryStep]
    constructor
    · rintro ((hp | ⟨ha, hb⟩) | ⟨u, hu, he⟩)
      · exact Or.inl hp
      · exact Or.inr ⟨t, by simp, ha, hb⟩
      · exact Or.inr ⟨u, by simp [hu], he⟩
    · rintro (hp | ⟨u, hu, he⟩)
      · exact Or.inl (Or.inl hp)
      · rcases List.mem_cons.mp hu with rfl | hu2
        · exact Or.inl (Or.inr he)
        · exact Or.inr ⟨u, hu2, he⟩

/-- C2 (amended): membership in `GENERATED_TYPES` is exactly the
per-declaration rule of the code — named, public, non-unicode base
name, and `registryHasContent` (SKIP_TYPES / delegate base / enum
branch / member branch with the fixed `SKIP_BASE_TYPES` constant) —
and the base-type exclusion sits inside the non-enum branch: an enum
with at least one constant has content regardless of its base type, so
no base check (sealed or otherwise) precedes the enum branch, and no
sealed-type registry exists. -/
theorem C2_amended_generated_characterization :
    (∀ (ts : List TypeDef) (p : String × String),
      p ∈ (build_type_registry ts).generated ↔
        ∃ t ∈ ts, registryEligible t = true ∧ p = (t.name, nsOf t))
    ∧ (∀ t : TypeDef, t.kind = "enum" → t.fields ≠ [] →
        t.name ∉ SKIP_TYPES → t.base_type ≠ some "MulticastDelegate" →
        t.name ∉ SKIP_NESTED_ENUM_NAMES → registryHasContent t = true) := by
  constructor
  · intro ts p
    unfold build_type_registry
    rw [mem_generated_foldl]
    simp
  · intro t hkind hfields hskip hdel hnested
    unfold registryHasContent
    rw [if_neg (by simpa using hskip)]
    rw [if_neg hdel]
    rw [if_pos (by simp [hkind, hfields])]
    rw [if_neg (by simpa using hnested)]

/-- C2 (amended, witness): the characterization evaluated on the
sealed-base counterexample input, and an enum with a base type in
`SKIP_BASE_TYPES` that still has content. -/
theorem C2_amended_witness :
    (("C", "N") ∈ (build_type_registry [sampleSealedS, sampleSubC]).generated
      ↔ ∃ t ∈ [sampleSealedS, sampleSubC],
          registryEligible t = true ∧ ("C", "N") = (t.name, nsOf t))
    ∧ registryHasContent sampleEnumE2 = true := by
  constructor
  · exact C2_amended_generated_characterization.1 [sampleSealedS, sampleSubC] ("C", "N")
  · exact C2_amended_generated_characterization.2 sampleEnumE2 rfl (by decide) (by decide)
      (by decide) (by decide)

/-! Auxiliary facts about accessor names `get_X` / `set_X`. -/

theorem data_append (p s : String) : (p ++ s).data = p.data ++ s.data := rfl

theorem isPrefixOf_append_self (l m : List Char) : l.isPrefixOf (l ++ m) = true := by
  induction l with
  | nil => simp [List.isPrefixOf]
  | cons a as ih => simpa [List.isPrefixOf] using ih

theorem pyStartsWith_append_self (p s : String) : pyStartsWith (p ++ s) p = true := by
  unfold pyStartsWith
  rw [data_append]
  exact isPrefixOf_append_self _ _

theorem get_not_startsWith_set (X : String) :
    pyStartsWith ("set_" ++ X) "get_" = false := by
  unfold pyStartsWith
  rw [data_append]
  show List.isPrefixOf ['g', 'e', 't', '_'] ('s' :: 'e' :: 't' :: '_' :: X.data) = false
  simp [List.isPrefixOf]

theorem pyDropStr_append (p s : String) (n : Nat) (hn : p.data.length = n) :
    pyDropStr (p ++ s) n = s := by
  unfold pyDropStr
  rw [data_append, ← hn, List.drop_left]

theorem get_ne_set (X Y : String) : "get_" ++ X ≠ "set_" ++ Y := by
  intro h
  have hd := congrArg String.data h
  rw [data_append, data_append] at hd
  cases hd

theorem keywords_no_underscore : ∀ k ∈ CSHARP_KEYWORDS, '_' ∉ k.data := by
  decide

theorem removeChar_no (s : String) (a : Char) (h : ∀ x ∈ s.data, x ≠ a) :
    removeChar s a = s := by
  unfold removeChar
  have hf : s.data.filter (fun c => c ≠ a) = s.data :=
    List.filter_eq_self.mpr (fun x hx => by simpa using h x hx)
  rw [hf]

theorem map_keep_of_ne (l : List Char) (a b : Char) (h : ∀ x ∈ l, x ≠ a) :
    l.map (fun c => if c = a then b else c) = l := by
  induction l with
  | nil => rfl
  | cons x xs ih =>
    rw [List.map_cons]
    rw [if_neg (h x (List.mem_cons_self x xs))]
    rw [ih (fun y hy => h y (List.mem_cons_of_mem x hy))]

theorem replaceChar_no (s : String) (a b : Char) (h : ∀ x ∈ s.data, x ≠ a) :
    replaceChar s a b = s := by
  unfold replaceChar
  rw [map_keep_of_ne s.data a b h]

theorem valid_char_ne (s : String) (hv : has_valid_csharp_identifier_chars s = true)
    (a : Char) (ha : (a.isAlphanum || a = '_') = false) : ∀ x ∈ s.data, x ≠ a := by
  intro x hx he
  subst he
  unfold has_valid_csharp_identifier_chars at hv
  rw [Bool.and_eq_true, List.all_eq_true] at hv
  have := hv.2 x hx
  rw [this] at ha
  cases ha

theorem cleanDecor_of_valid (s : String)
    (hv : has_valid_csharp_identifier_chars s = true) : cleanDecor s = s := by
  unfold cleanDecor
  rw [removeChar_no s '<' (valid_char_ne s hv '<' (by decide))]
  rw [removeChar_no s '>' (valid_char_ne s hv '>' (by decide))]
  rw [removeChar_no s '.' (valid_char_ne s hv '.' (by decide))]
  rw [removeChar_no s '|' (valid_char_ne s hv '|' (by decide))]

theorem valid_append (p s : String) (hp : has_valid_csharp_identifier_chars p = true)
    (hs : has_valid_csharp_identifier_chars s = true) :
    has_valid_csharp_identifier_chars (p ++ s) = true := by
  unfold has_valid_csharp_identifier_chars at *
  rw [Bool.and_eq_true, List.all_eq_true] at hp hs
  rw [Bool.and_eq_true, List.all_eq_true, data_append]
  refine ⟨?_, ?_⟩
  · simp only [ne_eq, List.append_eq_nil, decide_eq_true_eq]
    intro ⟨h1, _⟩
    exact absurd (by simpa using h1) (by simpa using hp.1)
  · intro x hx
    rcases List.mem_append.mp hx with hx1 | hx2
    · exact hp.2 x hx1
    · exact hs.2 x hx2

theorem is_unicode_name_of_valid (s : String)
    (hv : has_valid_csharp_identifier_chars s = true) : is_unicode_name s = false := by
  have hclean : removeChar (removeChar (removeChar (removeChar s '<') '>') '.') '|' = s :=
    cleanDecor_of_valid s hv
  have hne : ¬ s.data = [] := by
    unfold has_valid_csharp_identifier_chars at hv
    rw [Bool.and_eq_true] at hv
    simpa using hv.1
  unfold is_unicode_name
  rw [if_neg hne]
  show (!has_valid_csharp_identifier_chars
    (removeChar (removeChar (removeChar (removeChar s '<') '>') '.') '|')) = false
  rw [hclean, hv]
  rfl

theorem sanitize_name_id (s : String)
    (hv : has_valid_csharp_identifier_chars s = true)
    (hhead : ∀ c cs, s.data = c :: cs → c.isDigit = false)
    (hkw : s ∉ CSHARP_KEYWORDS) : sanitize_name s = some s := by
  have hne : s.data ≠ [] := by
    unfold has_valid_csharp_identifier_chars at hv
    rw [Bool.and_eq_true] at hv
    simpa using hv.1
  have hdot : ∀ x ∈ s.data, x ≠ '.' := valid_char_ne s hv '.' (by decide)
  unfold sanitize_name
  rw [if_neg hne]
  rw [if_neg (fun he => by
    have : '.' ∈ s.data := by rw [he]; decide
    exact hdot '.' this rfl)]
  rw [if_neg (fun he => by
    have : '.' ∈ s.data := by rw [he]; decide
    exact hdot '.' this rfl)]
  rw [cleanDecor_of_valid s hv, hv]
  simp only [Bool.not_true, Bool.false_eq_true, if_false]
  rw [replaceChar_no s '<' '_' (valid_char_ne s hv '<' (by decide))]
  rw [replaceChar_no s '>' '_' (valid_char_ne s hv '>' (by decide))]
  rw [replaceChar_no s '.' '_' (valid_char_ne s hv '.' (by decide))]
  rw [replaceChar_no s '|' '_' (valid_char_ne s hv '|' (by decide))]
  have hmatch : (match s.data with
      | c :: _ => if c.isDigit then "_" ++ s else s
      | [] => s) = s := by
    rcases hd : s.data with _ | ⟨c, cs⟩
    · simp
    · simp [hhead c cs hd]
  rw [hmatch]
  rw [if_neg (by simpa using hkw)]

theorem accessor_valid (p X : String)
    (hp : has_valid_csharp_identifier_chars p = true)
    (hXv : has_valid_csharp_identifier_chars X = true) :
    has_valid_csharp_identifier_chars (p ++ X) = true :=
  valid_append p X hp hXv

/-- C4 (amended): a matched pair of valid accessors `get_X` (public,
zero parameters, non-void return) and `set_X` (public, one parameter,
void return) is consolidated into the single property `X` and neither
accessor is emitted as a method — except when `X` is in
`SKIP_PROPERTY_NAMES`, in which case no property is emitted and both
accessors are handed back to plain-method emission (which admits them
because they are public; a non-public accessor of a skipped name is
dropped entirely, see the counterexample). -/
theorem C4_amended_property_consolidation
    (X T pname mT : String) (gstat sstat : Bool) (grva srva : Option String)
    (ns : String) (imp : List String) (reg : Registry) (g s : MethodDef)
    (hgdef : g = { name := "get_" ++ X, return_type := T, is_static := gstat,
                   visibility := "public", parameters := [], rva := grva })
    (hsdef : s = { name := "set_" ++ X, return_type := "Void", is_static := sstat,
                   visibility := "public",
                   parameters := [{ modifier := "", type := T, name := pname }], rva := srva })
    (hXv : has_valid_csharp_identifier_chars X = true)
    (hT : T ≠ "Void")
    (hmT : map_type T = some mT)
    (hres : is_type_resolvable T (some ns) (some imp) reg = true)
    (hvg : is_valid_methodO g (some ns) (some imp) reg = some true)
    (hvs : is_valid_methodO s (some ns) (some imp) reg = some true) :
    (X ∉ SKIP_PROPERTY_NAMES → classPlanO [g, s] ns imp reg = some ([X], []))
    ∧ (X ∈ SKIP_PROPERTY_NAMES → classPlanO [g, s] ns imp reg = some ([], [g, s])) := by
  subst hgdef
  subst hsdef
  have hgname : has_valid_csharp_identifier_chars ("get_" ++ X) = true :=
    accessor_valid "get_" X (by decide) hXv
  have hsname : has_valid_csharp_identifier_chars ("set_" ++ X) = true :=
    accessor_valid "set_" X (by decide) hXv
  have hUX : is_unicode_name X = false := is_unicode_name_of_valid X hXv
  have hUg : is_unicode_name ("get_" ++ X) = false := is_unicode_name_of_valid _ hgname
  have hUs : is_unicode_name ("set_" ++ X) = false := is_unicode_name_of_valid _ hsname
  have hgd : ("get_" ++ X).data = 'g' :: 'e' :: 't' :: '_' :: X.data := rfl
  have hsd : ("set_" ++ X).data = 's' :: 'e' :: 't' :: '_' :: X.data := rfl
  have hsan_g : sanitize_name ("get_" ++ X) = some ("get_" ++ X) := by
    apply sanitize_name_id _ hgname
    · intro c cs hcs
      rw [hgd] at hcs
      cases hcs
      decide
    · intro hkw
      exact keywords_no_underscore _ hkw (by rw [hgd]; simp)
  have hsan_s : sanitize_name ("set_" ++ X) = some ("set_" ++ X) := by
    apply sanitize_name_id _ hsname
    · intro c cs hcs
      rw [hsd] at hcs
      cases hcs
      decide
    · intro hkw
      exact keywords_no_underscore _ hkw (by rw [hsd]; simp)
  have hne_gs : "get_" ++ X ≠ "set_" ++ X := get_ne_set X X
  have hdropg : pyDropStr ("get_" ++ X) 4 = X := pyDropStr_append "get_" X 4 rfl
  have hdrops : pyDropStr ("set_" ++ X) 4 = X := pyDropStr_append "set_" X 4 rfl
  have hcollect : collectPropsO
      [{ name := "get_" ++ X, return_type := T, is_static := gstat,
         visibility := "public", parameters := [], rva := grva },
       { name := "set_" ++ X, return_type := "Void", is_static := sstat,
         visibility := "public",
         parameters := [{ modifier := "", type := T, name := pname }], rva := srva }]
      ns imp reg
      = some ([(X, { get := some { name := "get_" ++ X, return_type := T, is_static := gstat,
                                   visibility := "public", parameters := [], rva := grva },
                     set := some { name := "set_" ++ X, return_type := "Void", is_static := sstat,
                                   visibility := "public",
                                   parameters := [{ modifier := "", type := T, name := pname }],
                                   rva := srva },
                     type := some T })],
              ["get_" ++ X, "set_" ++ X]) := by
    unfold collectPropsO
    simp only [List.foldl_cons, List.foldl_nil, hvg, hvs]
    simp [pyStartsWith_append_self, get_not_startsWith_set, hdropg, hdrops, hT,
      propUpd, addUsed, hne_gs, Ne.symm hne_gs]
  have hplanA : X ∉ SKIP_PROPERTY_NAMES →
      genPropsPlan
        [(X, { get := some { name := "get_" ++ X, return_type := T, is_static := gstat,
                             visibility := "public", parameters := [], rva := grva },
               set := some { name := "set_" ++ X, return_type := "Void", is_static := sstat,
                             visibility := "public",
                             parameters := [{ modifier := "", type := T, name := pname }],
                             rva := srva },
               type := some T })]
        ["get_" ++ X, "set_" ++ X] ns imp reg
      = ([X], ["get_" ++ X, "set_" ++ X], 0) := by
    intro hskip
    unfold genPropsPlan sortPropsByKey
    simp [insertByKey, hUX, hskip, hmT, hres]
  have hplanB : X ∈ SKIP_PROPERTY_NAMES →
      genPropsPlan
        [(X, { get := some { name := "get_" ++ X, return_type := T, is_static := gstat,
                             visibility := "public", parameters := [], rva := grva },
               set := some { name := "set_" ++ X, return_type := "Void", is_static := sstat,
                             visibility := "public",
                             parameters := [{ modifier := "", type := T, name := pname }],
                             rva := srva },
               type := some T })]
        ["get_" ++ X, "set_" ++ X] ns imp reg
      = ([], [], 0) := by
    intro hskip
    unfold genPropsPlan sortPropsByKey
    simp [insertByKey, hUX, hskip, hne_gs, Ne.symm hne_gs]
  have hvmA : validMethodsO
      [{ name := "get_" ++ X, return_type := T, is_static := gstat,
         visibility := "public", parameters := [], rva := grva },
       { name := "set_" ++ X, return_type := "Void", is_static := sstat,
         visibility := "public",
         parameters := [{ modifier := "", type := T, name := pname }], rva := srva }]
      ["get_" ++ X, "set_" ++ X] ns imp reg = some [] := by
    simp [validMethodsO, hvg, hvs]
  have hvmB : validMethodsO
      [{ name := "get_" ++ X, return_type := T, is_static := gstat,
         visibility := "public", parameters := [], rva := grva },
       { name := "set_" ++ X, return_type := "Void", is_static := sstat,
         visibility := "public",
         parameters := [{ modifier := "", type := T, name := pname }], rva := srva }]
      [] ns imp reg
      = some [{ name := "get_" ++ X, return_type := T, is_static := gstat,
                visibility := "public", parameters := [], rva := grva },
              { name := "set_" ++ X, return_type := "Void", is_static := sstat,
                visibility := "public",
                parameters := [{ modifier := "", type := T, name := pname }], rva := srva }] := by
    simp [validMethodsO, hvg, hvs]
  have hkg : methodSigKey
      { name := "get_" ++ X, return_type := T, is_static := gstat,
        visibility := "public", parameters := [], rva := grva }
      = some ("get_" ++ X, []) := by
    simp [methodSigKey, hUg, hsan_g]
  have hks : methodSigKey
      { name := "set_" ++ X, return_type := "Void", is_static := sstat,
        visibility := "public",
        parameters := [{ modifier := "", type := T, name := pname }], rva := srva }
      = some ("set_" ++ X,
          [if is_generic_type_param T then some "object" else map_type T]) := by
    simp [methodSigKey, hUs, hsan_s]
  have hded : dedupMethods
      [{ name := "get_" ++ X, return_type := T, is_static := gstat,
         visibility := "public", parameters := [], rva := grva },
       { name := "set_" ++ X, return_type := "Void", is_static := sstat,
         visibility := "public",
         parameters := [{ modifier := "", type := T, name := pname }], rva := srva }]
      = [{ name := "get_" ++ X, return_type := T, is_static := gstat,
           visibility := "public", parameters := [], rva := grva },
         { name := "set_" ++ X, return_type := "Void", is_static := sstat,
           visibility := "public",
           parameters := [{ modifier := "", type := T, name := pname }], rva := srva }] := by
    unfold dedupMethods
    simp only [List.foldl_cons, List.foldl_nil, hkg, hks]
    simp [hne_gs, Ne.symm hne_gs]
  constructor
  · intro hskip
    unfold classPlanO
    rw [hcollect]
    simp only [hplanA hskip, hvmA]
    simp [dedupMethods]
  · intro hskip
    unfold classPlanO
    rw [hcollect]
    simp only [hplanB hskip, hvmB]
    simp [hded]

/-- C4 (amended, witness): the pair `get_Health`/`set_Health` becomes
the single property `Health` with no methods; the pair
`get_Type`/`set_Type` (skip-name, public) yields no property and both
accessors as plain methods. -/
theorem C4_amended_witness :
    (is_valid_methodO { name := "get_" ++ "Health", return_type := "Int32", is_static := false, visibility := "public", parameters := [], rva := none }
        (some "N") (some ALWAYS_IMPORTED_NAMESPACES) {} = some true
      ∧ "Health" ∉ SKIP_PROPERTY_NAMES ∧ "Type" ∈ SKIP_PROPERTY_NAMES)
    ∧ classPlanO
        [{ name := "get_" ++ "Health", return_type := "Int32", is_static := false, visibility := "public", parameters := [], rva := none },
         { name := "set_" ++ "Health", return_type := "Void", is_static := false, visibility := "public", parameters := [{ modifier := "", type := "Int32", name := "value" }], rva := none }]
        "N" ALWAYS_IMPORTED_NAMESPACES {} = some (["Health"], [])
    ∧ classPlanO
        [{ name := "get_" ++ "Type", return_type := "Int32", is_static := false, visibility := "public", parameters := [], rva := none },
         { name := "set_" ++ "Type", return_type := "Void", is_static := false, visibility := "public", parameters := [{ modifier := "", type := "Int32", name := "value" }], rva := none }]
        "N" ALWAYS_IMPORTED_NAMESPACES {}
      = some ([],
          [{ name := "get_" ++ "Type", return_type := "Int32", is_static := false, visibility := "public", parameters := [], rva := none },
           { name := "set_" ++ "Type", return_type := "Void", is_static := false, visibility := "public", parameters := [{ modifier := "", type := "Int32", name := "value" }], rva := none }]) := by
  refine ⟨⟨by decide, by decide, by decide⟩, ?_, ?_⟩
  · exact (C4_amended_property_consolidation "Health" "Int32" "value" "int" false false
      none none "N" ALWAYS_IMPORTED_NAMESPACES {} _ _ rfl rfl (by decide) (by decide)
      (by decide) (by decide) (by decide) (by decide)).1 (by decide)
  · exact (C4_amended_property_consolidation "Type" "Int32" "value" "int" false false
      none none "N" ALWAYS_IMPORTED_NAMESPACES {} _ _ rfl rfl (by decide) (by decide)
      (by decide) (by decide) (by decide) (by decide)).2 (by decide)

/-! Auxiliary facts for the candidate-namespace scan. -/

theorem perm_any_eq {α : Type} {l₁ l₂ : List α} (h : l₁.Perm l₂) (f : α → Bool) :
    l₁.any f = l₂.any f := by
  cases h1 : l₁.any f <;> cases h2 : l₂.any f <;> try rfl
  · exfalso
    obtain ⟨x, hx, hfx⟩ := List.any_eq_true.mp h2
    have h3 := List.any_eq_true.mpr ⟨x, h.mem_iff.mpr hx, hfx⟩
    rw [h1] at h3
    cases h3
  · exfalso
    obtain ⟨x, hx, hfx⟩ := List.any_eq_true.mp h1
    have h3 := List.any_eq_true.mpr ⟨x, h.mem_iff.mp hx, hfx⟩
    rw [h2] at h3
    cases h3

theorem mem_definingNamespaces_foldl (tn : String) (m : List (String × List String))
    (x : String) : ∀ (cs : List String) (acc : List String),
    (x ∈ cs.foldl (fun acc ns =>
        match m.lookup ns with
        | some ts => if ts.contains tn && !acc.contains ns then acc ++ [ns] else acc
        | none => acc) acc
      ↔ x ∈ acc ∨ (x ∈ cs ∧ ∃ ts, m.lookup x = some ts ∧ tn ∈ ts)) := by
  intro cs
  induction cs with
  | nil => intro acc; simp
  | cons c cs ih =>
    intro acc
    rw [List.foldl_cons]
    cases hc : m.lookup c with
    | none =>
      simp only [hc]
      rw [ih]
      constructor
      · rintro (h | ⟨h1, h2⟩)
        · exact Or.inl h
        · exact Or.inr ⟨List.mem_cons_of_mem c h1, h2⟩
      · rintro (h | ⟨h1, h2⟩)
        · exact Or.inl h
        · rcases List.mem_cons.mp h1 with rfl | h1'
          · obtain ⟨ts, hts, _⟩ := h2
            rw [hc] at hts
            cases hts
          · exact Or.inr ⟨h1', h2⟩
    | some ts =>
      simp only [hc]
      by_cases hcond : (ts.contains tn && !acc.contains c) = true
      · rw [if_pos hcond, ih]
        rw [Bool.and_eq_true] at hcond
        have htn : tn ∈ ts := by simpa using hcond.1
        constructor
        · rintro (h | ⟨h1, h2⟩)
          · rcases List.mem_append.mp h with h' | h'
            · exact Or.inl h'
            · have hxc : x = c := by simpa using h'
              subst hxc
              exact Or.inr ⟨List.mem_cons_self x cs, ⟨ts, hc, htn⟩⟩
          · exact Or.inr ⟨List.mem_cons_of_mem c h1, h2⟩
        · rintro (h | ⟨h1, h2⟩)
          · exact Or.inl (List.mem_append.mpr (Or.inl h))
          · rcases List.mem_cons.mp h1 with rfl | h1'
            · exact Or.inl (List.mem_append.mpr (Or.inr (by simp)))
            · exact Or.inr ⟨h1', h2⟩
      · rw [if_neg hcond, ih]
        rw [Bool.and_eq_true, not_and_or] at hcond
        constructor
        · rintro (h | ⟨h1, h2⟩)
          · exact Or.inl h
          · exact Or.inr ⟨List.mem_cons_of_mem c h1, h2⟩
        · rintro (h | ⟨h1, h2⟩)
          · exact Or.inl h
          · rcases List.mem_cons.mp h1 with rfl | h1'
            · obtain ⟨ts', hts', htn'⟩ := h2
              rw [hc] at hts'
              cases hts'
              rcases hcond with hcl | hcr
              · exact absurd (by simpa using htn') hcl
              · simp only [Bool.not_eq_true, Bool.not_eq_false] at hcr
                exact Or.inl (by simpa using hcr)
            · exact Or.inr ⟨h1', h2⟩

theorem nodup_definingNamespaces_foldl (tn : String) (m : List (String × List String)) :
    ∀ (cs : List String) (acc : List String), acc.Nodup →
    (cs.foldl (fun acc ns =>
        match m.lookup ns with
        | some ts => if ts.contains tn && !acc.contains ns then acc ++ [ns] else acc
        | none => acc) acc).Nodup := by
  intro cs
  induction cs with
  | nil => intro acc h; exact h
  | cons c cs ih =>
    intro acc hacc
    rw [List.foldl_cons]
    cases hc : m.lookup c with
    | none =>
      simp only [hc]
      exact ih acc hacc
    | some ts =>
      simp only [hc]
      by_cases hcond : (ts.contains tn && !acc.contains c) = true
      · rw [if_pos hcond]
        apply ih
        rw [Bool.and_eq_true] at hcond
        have hnc : c ∉ acc := by
          have := hcond.2
          rw [Bool.not_eq_true', ← Bool.not_eq_true] at this
          simpa using this
        simp [List.nodup_append, hacc, hnc]
      · rw [if_neg hcond]
        exact ih acc hacc

theorem mem_definingNamespaces (tn current : String) (m : List (String × List String))
    (cands : List String) (x : String) :
    x ∈ definingNamespaces tn current m cands ↔
      ((x = current ∨ x ∈ cands) ∧ ∃ ts, m.lookup x = some ts ∧ tn ∈ ts) := by
  unfold definingNamespaces
  rw [mem_definingNamespaces_foldl]
  cases hcur : m.lookup current with
  | none =>
    simp only [hcur]
    constructor
    · rintro (h | ⟨h1, h2⟩)
      · simp at h
      · exact ⟨Or.inr h1, h2⟩
    · rintro ⟨h1, h2⟩
      rcases h1 with rfl | h1'
      · obtain ⟨ts, hts, _⟩ := h2
        rw [hcur] at hts
        cases hts
      · exact Or.inr ⟨h1', h2⟩
  | some ts =>
    simp only [hcur]
    by_cases hin : ts.contains tn = true
    · rw [if_pos hin]
      have htn : tn ∈ ts := by simpa using hin
      constructor
      · rintro (h | ⟨h1, h2⟩)
        · have hxc : x = current := by simpa using h
          subst hxc
          exact ⟨Or.inl rfl, ⟨ts, hcur, htn⟩⟩
        · exact ⟨Or.inr h1, h2⟩
      · rintro ⟨h1, h2⟩
        rcases h1 with rfl | h1'
        · exact Or.inl (by simp)
        · exact Or.inr ⟨h1', h2⟩
    · rw [if_neg hin]
      constructor
      · rintro (h | ⟨h1, h2⟩)
        · simp at h
        · exact ⟨Or.inr h1, h2⟩
      · rintro ⟨h1, h2⟩
        rcases h1 with rfl | h1'
        · obtain ⟨ts', hts', htn'⟩ := h2
          rw [hcur] at hts'
          cases hts'
          exact absurd (by simpa using htn') hin
        · exact Or.inr ⟨h1', h2⟩

theorem nodup_definingNamespaces (tn current : String) (m : List (String × List String))
    (cands : List String) : (definingNamespaces tn current m cands).Nodup := by
  unfold definingNamespaces
  apply nodup_definingNamespaces_foldl
  cases hcur : m.lookup current with
  | none => simp
  | some ts =>
    show (if ts.contains tn = true then [current] else []).Nodup
    by_cases hin : ts.contains tn = true
    · rw [if_pos hin]; simp
    · rw [if_neg hin]; simp

theorem definingNamespaces_perm (tn current : String) (m : List (String × List String))
    {c₁ c₂ : List String} (h : c₁.Perm c₂) :
    (definingNamespaces tn current m c₁).Perm (definingNamespaces tn current m c₂) := by
  rw [List.perm_ext_iff_of_nodup (nodup_definingNamespaces tn current m c₁)
    (nodup_definingNamespaces tn current m c₂)]
  intro x
  rw [mem_definingNamespaces, mem_definingNamespaces, h.mem_iff]

theorem acceptCandidate_perm (core : List String) (current : String)
    (m : List (String × List String)) (typeRefs : List String)
    {a₁ a₂ : List String} (h : a₁.Perm a₂) (ns : String) :
    acceptCandidate core current m typeRefs a₁ ns
      = acceptCandidate core current m typeRefs a₂ ns := by
  unfold acceptCandidate
  have hfun : (fun tn =>
      let defi := definingNamespaces tn current m a₁
      if defi.length > 1 then
        let other := defi.filter (fun n => n ≠ ns)
        other.any (fun n => core.contains n) || other.contains current
      else false)
    = (fun tn =>
      let defi := definingNamespaces tn current m a₂
      if defi.length > 1 then
        let other := defi.filter (fun n => n ≠ ns)
        other.any (fun n => core.contains n) || other.contains current
      else false) := by
    funext tn
    have hp := definingNamespaces_perm tn current m h
    have hlen := hp.length_eq
    show (if (definingNamespaces tn current m a₁).length > 1 then _ else false)
      = (if (definingNamespaces tn current m a₂).length > 1 then _ else false)
    rw [← hlen]
    by_cases hgt : (definingNamespaces tn current m a₁).length > 1
    · rw [if_pos hgt, if_pos hgt]
      have hpf := hp.filter (fun n => n ≠ ns)
      show ((List.filter (fun n => n ≠ ns) (definingNamespaces tn current m a₁)).any
            (fun n => core.contains n)
          || (List.filter (fun n => n ≠ ns) (definingNamespaces tn current m a₁)).contains current)
        = ((List.filter (fun n => n ≠ ns) (definingNamespaces tn current m a₂)).any
            (fun n => core.contains n)
          || (List.filter (fun n => n ≠ ns) (definingNamespaces tn current m a₂)).contains current)
      rw [perm_any_eq hpf]
      have hmem : ((definingNamespaces tn current m a₁).filter (fun n => n ≠ ns)).contains current
          = ((definingNamespaces tn current m a₂).filter (fun n => n ≠ ns)).contains current := by
        cases hc : ((definingNamespaces tn current m a₂).filter (fun n => n ≠ ns)).contains current
        · rw [Bool.eq_false_iff]
          intro hc1
          have : current ∈ (definingNamespaces tn current m a₂).filter (fun n => n ≠ ns) :=
            hpf.mem_iff.mp (by simpa using hc1)
          rw [Bool.eq_false_iff] at hc
          exact hc (by simpa using this)
        · have : current ∈ (definingNamespaces tn current m a₂).filter (fun n => n ≠ ns) := by
            simpa using hc
          simpa using hpf.mem_iff.mpr this
      rw [hmem]
    · rw [if_neg hgt, if_neg hgt]
  rw [hfun]

/-- C9: the namespace-using computation — the only stage of the
emitter that iterates over an unordered set — is invariant under
permutation of the candidate-namespace enumeration order: the emitted
generated-usings block (built from the sorted accepted candidates) is
byte-identical for any two enumeration orders of the same candidate
set, so the pipeline output is a deterministic function of the
declaration list and registry. -/
theorem C9_emitter_iteration_order_independent (core : List String) (current : String)
    (m : List (String × List String)) (typeRefs : List String)
    {c₁ c₂ : List String} (h : c₁.Perm c₂) :
    generatedUsingBlock core current m typeRefs c₁
      = generatedUsingBlock core current m typeRefs c₂ := by
  have hfin : finalNamespaces core current m typeRefs c₁
      = finalNamespaces core current m typeRefs c₂ := by
    unfold finalNamespaces
    have hpred : ∀ x ∈ c₁, acceptCandidate core current m typeRefs (c₁ ++ core) x
        = acceptCandidate core current m typeRefs (c₂ ++ core) x :=
      fun x _ => acceptCandidate_perm core current m typeRefs (h.append_right core) x
    have hfilter : (c₁.filter (acceptCandidate core current m typeRefs (c₁ ++ core))).Perm
        (c₂.filter (acceptCandidate core current m typeRefs (c₂ ++ core))) := by
      rw [List.filter_congr hpred]
      exact h.filter _
    have hperm := hfilter.dedup
    exact List.eq_of_perm_of_sorted
      ((List.perm_insertionSort _ _).trans (hperm.trans (List.perm_insertionSort _ _).symm))
      (List.sorted_insertionSort _ _) (List.sorted_insertionSort _ _)
  unfold generatedUsingBlock
  rw [hfin]

/-- C9 (witness): two enumeration orders of the candidate set
`{A, B}` produce the same generated-usings block. -/
theorem C9_witness :
    (["A", "B"] : List String).Perm ["B", "A"]
    ∧ generatedUsingBlock ["UnityEngine"] "N" [("A", ["Foo"]), ("B", ["Bar"])]
        ["Foo", "Bar"] ["A", "B"]
      = generatedUsingBlock ["UnityEngine"] "N" [("A", ["Foo"]), ("B", ["Bar"])]
        ["Foo", "Bar"] ["B", "A"] := by
  refine ⟨by decide, ?_⟩
  exact C9_emitter_iteration_order_independent ["UnityEngine"] "N"
    [("A", ["Foo"]), ("B", ["Bar"])] ["Foo", "Bar"] (by decide)

end MDB
